import Mathlib

/-!
Verification development for the telco churn data-preparation module
(`prepare.py`): feature encoding (`prep_telco`), train/validate/test
partitioning (`telco_split`, `telco_split_xy`), min-max scaling
(`telco_X_scale`) and the mall-data variant (`prep_mall_data`).

A dataframe is embedded as a list of rows; a row is an association list
from column names to cells.  Column-wise pandas operations become
row-wise maps, applied in the order of the source lines.
-/

/-- A cell of a dataframe: a string, a rational number, or the missing
marker (pandas `NaN`, produced by `.map` on an unmapped key or by
`pd.to_numeric(errors='coerce')` on an unparsable string). -/
inductive Cell where
  | str (s : String)
  | num (q : ℚ)
  | null
deriving DecidableEq, Repr

/-- One row: an association list from column names to cells. -/
abbrev Row := List (String × Cell)

/-- One indexed row: the row identifier (the dataframe index) with the
remaining cells. -/
abbrev IRow := String × Row

/-- First binding of a column in a row, if present. -/
def lookupCell (c : String) : Row → Option Cell
  | [] => none
  | (k, v) :: r => if k = c then some v else lookupCell c r

/-- Value of a column, the missing marker when the column is absent. -/
def lookupD (c : String) (r : Row) : Cell :=
  (lookupCell c r).getD Cell.null

/-- Column names of a row, in order. -/
def rowKeys (r : Row) : List String := r.map Prod.fst

/-- `df.col = df.col.map(f)`: rewrite one column in place, other
columns untouched. -/
def mapCol (c : String) (f : Cell → Cell) (r : Row) : Row :=
  r.map (fun kv => if kv.1 = c then (kv.1, f kv.2) else kv)

/-- `df['c'] = v`: replace the column if present, append it otherwise. -/
def setCol (c : String) (v : Cell) (r : Row) : Row :=
  if c ∈ rowKeys r then mapCol c (fun _ => v) r else r ++ [(c, v)]

/-- `df.drop(columns=cs)`. -/
def dropCols (cs : List String) (r : Row) : Row :=
  r.filter (fun kv => kv.1 ∉ cs)

/-- `df.drop(columns=[c])`, the single-column case used by
`telco_split_xy`. -/
def dropCol (c : String) (r : Row) : Row :=
  r.filter (fun kv => kv.1 ≠ c)

/-- `df.rename(columns=tbl)`: a key found in the table is replaced by
its image, any other key is kept. -/
def renameCols (tbl : List (String × String)) (r : Row) : Row :=
  r.map (fun kv =>
    match tbl.lookup kv.1 with
    | some k => (k, kv.2)
    | none => kv)

/-- Is the cell the missing marker? -/
def Cell.isNull : Cell → Bool
  | Cell.null => true
  | _ => false

/-- Pandas `+` on two numeric cells; any missing operand is missing
(`NaN` propagates). -/
def cellAdd : Cell → Cell → Cell
  | Cell.num a, Cell.num b => Cell.num (a + b)
  | _, _ => Cell.null

/-- The dictionary `{'Yes': 1, 'No': 0, 'No internet service': 0}`
applied by `.map` to the six add-on columns; an unmapped value becomes
the missing marker. -/
def addOnMap : Cell → Cell
  | Cell.str "Yes" => Cell.num 1
  | Cell.str "No" => Cell.num 0
  | Cell.str "No internet service" => Cell.num 0
  | _ => Cell.null

/-- The dictionary `{'Yes': 1, 'No': 0}` used for `phone_service`,
`partner`, `dependents` and `churn`. -/
def ynMap : Cell → Cell
  | Cell.str "Yes" => Cell.num 1
  | Cell.str "No" => Cell.num 0
  | _ => Cell.null

/-- The dictionary `{'Male': 1, 'Female': 0}` used to build `is_male`. -/
def genderMap : Cell → Cell
  | Cell.str "Male" => Cell.num 1
  | Cell.str "Female" => Cell.num 0
  | _ => Cell.null

/-- The dictionary `{1: 0, 2: 1, 3: 2}` re-basing `contract_type_id`. -/
def contractMap : Cell → Cell
  | Cell.num q =>
    if q = 1 then Cell.num 0
    else if q = 2 then Cell.num 1
    else if q = 3 then Cell.num 2
    else Cell.null
  | _ => Cell.null

/-- The dictionary `{3: 0, 1: 1, 2: 2}` re-basing
`internet_service_type_id`. -/
def internetMap : Cell → Cell
  | Cell.num q =>
    if q = 3 then Cell.num 0
    else if q = 1 then Cell.num 1
    else if q = 2 then Cell.num 2
    else Cell.null
  | _ => Cell.null

/-- Python `round(x, 2)`: round to two decimal places. -/
def round2 (q : ℚ) : ℚ := (round (q * 100) : ℚ) / 100

/-- `round(df.tenure / 12, 2)` on one cell. -/
def tenureYrsCell : Cell → Cell
  | Cell.num t => Cell.num (round2 (t / 12))
  | _ => Cell.null

/-- Digits-only parse of a character list, accumulating into `acc`;
`none` when a non-digit appears. -/
def parseDigits : List Char → ℕ → Option ℕ
  | [], acc => some acc
  | c :: cs, acc =>
    if c.isDigit then parseDigits cs (acc * 10 + (c.toNat - 48))
    else none

/-- Structural part of the decimal parse modelling `pd.to_numeric`:
optional surrounding whitespace, optional sign, an integer part and an
optional fractional part, at least one digit in total.  Returns
(sign, integer part, fractional digits, number of fractional digits);
blank or whitespace-only strings fail. -/
def parseParts (s : String) : Option (Bool × ℕ × ℕ × ℕ) :=
  let cs := s.toList.dropWhile (·.isWhitespace)
  let cs := (cs.reverse.dropWhile (·.isWhitespace)).reverse
  let (neg, cs) :=
    match cs with
    | '-' :: rest => (true, rest)
    | '+' :: rest => (false, rest)
    | _ => (false, cs)
  let (intPart, fracPart) :=
    match cs.splitOn '.' with
    | [a] => (a, ([] : List Char))
    | [a, b] => (a, b)
    | _ => (['x'], [])
  if intPart.isEmpty ∧ fracPart.isEmpty then none
  else
    match parseDigits intPart 0, parseDigits fracPart 0 with
    | some i, some f => some (neg, i, f, fracPart.length)
    | _, _ => none

/-- The rational value of parsed decimal parts. -/
def partsVal (p : Bool × ℕ × ℕ × ℕ) : ℚ :=
  let mag : ℚ := (p.2.1 : ℚ) + (p.2.2.1 : ℚ) / ((10 : ℚ) ^ p.2.2.2)
  if p.1 then -mag else mag

/-- Decimal parse modelling `pd.to_numeric` on a string. -/
def parseDec (s : String) : Option ℚ :=
  (parseParts s).map partsVal

/-- `pd.to_numeric(cell, errors='coerce')`: numbers pass through,
strings are parsed, failures coerce to the missing marker. -/
def toNumericCell : Cell → Cell
  | Cell.num q => Cell.num q
  | Cell.str s => (parseDec s).elim Cell.null Cell.num
  | Cell.null => Cell.null

/-- The six add-on column names. -/
def addOnCols : List String :=
  ["online_security", "online_backup", "device_protection",
   "tech_support", "streaming_tv", "streaming_movies"]

/-- The renaming table of `prep_telco`. -/
def renameTbl : List (String × String) :=
  [("contract_type_id", "contract_type"), ("phone_service", "phone"),
   ("internet_service_type_id", "internet_type"),
   ("senior_citizen", "senior"), ("dependents", "depend")]

/-- The sum `df.online_security + df.online_backup + ... +
df.streaming_movies` of the six mapped add-on columns of a row. -/
def addOnSum (r : Row) : Cell :=
  cellAdd (cellAdd (cellAdd (cellAdd (cellAdd
    (lookupD "online_security" r) (lookupD "online_backup" r))
    (lookupD "device_protection" r)) (lookupD "tech_support" r))
    (lookupD "streaming_tv" r)) (lookupD "streaming_movies" r)

/-- The per-row transformation of `prep_telco`, following the source
lines in order: map the six add-on columns to 0/1, sum them into
`num_add_ons`, drop the six, encode `phone_service`, build `is_male`
and drop `gender`, encode `partner`/`dependents`/`churn`, re-base
`contract_type_id` and `internet_service_type_id`, derive `tenure_yrs`,
rename columns, and coerce `total_charges` to a number. -/
def prepRow (r : Row) : Row :=
  let r1 := mapCol "online_security" addOnMap r
  let r2 := mapCol "online_backup" addOnMap r1
  let r3 := mapCol "device_protection" addOnMap r2
  let r4 := mapCol "tech_support" addOnMap r3
  let r5 := mapCol "streaming_tv" addOnMap r4
  let r6 := mapCol "streaming_movies" addOnMap r5
  let r7 := setCol "num_add_ons" (addOnSum r6) r6
  let r8 := dropCols addOnCols r7
  let r9 := mapCol "phone_service" ynMap r8
  let r10 := setCol "is_male" (genderMap (lookupD "gender" r9)) r9
  let r11 := dropCols ["gender"] r10
  let r12 := mapCol "partner" ynMap r11
  let r13 := mapCol "dependents" ynMap r12
  let r14 := mapCol "churn" ynMap r13
  let r15 := mapCol "contract_type_id" contractMap r14
  let r16 := mapCol "internet_service_type_id" internetMap r15
  let r17 := setCol "tenure_yrs" (tenureYrsCell (lookupD "tenure" r16)) r16
  let r18 := renameCols renameTbl r17
  let r19 := setCol "total_charges" (toNumericCell (lookupD "total_charges" r18)) r18
  r19

/-- `df.set_index('customer_id')`: move the customer identifier out of
the columns and into the row index. -/
def setIndex (r : Row) : IRow :=
  (match lookupCell "customer_id" r with
   | some (Cell.str s) => s
   | _ => "",
   dropCols ["customer_id"] r)

/-- `prep_telco` on an acquired raw table: index by `customer_id`,
transform every row, then keep only the rows whose `total_charges`
coerced to an actual number (`df = df[~df.total_charges.isnull()]`). -/
def prep_telco (raw : List Row) : List IRow :=
  ((raw.map setIndex).map (fun p => (p.1, prepRow p.2))).filter
    (fun p => !(Cell.isNull (lookupD "total_charges" p.2)))

/-- Modelled from the spec: `sklearn.model_selection.train_test_split`
is an external library.  Its seeded pseudo-random stream is modelled by
a 64-bit linear congruential generator. -/
def lcg (s : ℕ) : ℕ :=
  (6364136223846793005 * s + 1442695040888963407) % (2 ^ 64)

/-- Remove the element at position `i` and return it with the rest of
the list; `none` when the position is out of range. -/
def pickOut (i : ℕ) : List α → Option (α × List α)
  | [] => none
  | x :: xs =>
    if i = 0 then some (x, xs)
    else (pickOut (i - 1) xs).map (fun p => (p.1, x :: p.2))

/-- Fuelled seeded shuffle: repeatedly extract a pseudo-randomly chosen
element. -/
def fyGo : ℕ → ℕ → List α → List α
  | 0, _, l => l
  | fuel + 1, s, l =>
    match pickOut (s % l.length) l with
    | none => l
    | some (a, r) => a :: fyGo fuel (lcg s) r

/-- Seeded deterministic shuffle of a list. -/
def fyShuffle (s : ℕ) (l : List α) : List α := fyGo l.length s l

/-- Modelled from the spec: `train_test_split` without stratification,
as used by `prep_mall_data` — a seeded shuffle, then the first
`ceil(n * num / den)` rows form the test set and the rest the training
set.  Returns `(train, test)` like the library. -/
def train_test_split (num den seed : ℕ) (rows : List α) :
    List α × List α :=
  let sh := fyShuffle seed rows
  let k := (rows.length * num + den - 1) / den
  (sh.drop k, sh.take k)

/-- Modelled from the spec: `train_test_split(..., stratify=labels)` on
a binary label — split the rows into the two strata, shuffle each with
a seed-derived stream, and draw a per-stratum share of the total test
size from each.  Returns `(train, test)`. -/
def ttsStrat (num den seed : ℕ) (isPos : α → Bool) (rows : List α) :
    List α × List α :=
  let p := rows.partition isPos
  let kTotal := (rows.length * num + den - 1) / den
  let kA := p.1.length * num / den
  let kB := kTotal - kA
  let sa := fyShuffle seed p.1
  let sb := fyShuffle (lcg seed) p.2
  (sa.drop kA ++ sb.drop kB, sa.take kA ++ sb.take kB)

/-- The churn label of an indexed row, used for stratification
(`stratify=df.churn`): after `prep_telco` the label is `1` for a
churned customer. -/
def churnPos (r : IRow) : Bool := lookupD "churn" r.2 = Cell.num 1

/-- `telco_split`: an 80/20 stratified split into `train_validate` and
`test`, then a 70/30 stratified split of `train_validate` into `train`
and `validate`, both with the hard-coded seed 666. -/
def telco_split (df : List IRow) : List IRow × List IRow × List IRow :=
  let p1 := ttsStrat 1 5 666 churnPos df
  let p2 := ttsStrat 3 10 666 churnPos p1.1
  (p2.1, p2.2, p1.2)

/-- Does every row of the dataframe carry the column?  (The embedding
of `target ∈ df.columns` for a uniform-schema dataframe.) -/
def hasColAll (c : String) (df : List IRow) : Bool :=
  df.all (fun r => c ∈ rowKeys r.2)

/-- Drop the target column from every row of a partition
(`X = part.drop(columns=[target])`). -/
def dropTarget (c : String) (df : List IRow) : List IRow :=
  df.map (fun r => (r.1, dropCol c r.2))

/-- Project the target column of every row of a partition
(`y = part[target]`, a series indexed like the partition). -/
def projTarget (c : String) (df : List IRow) : List (String × Cell) :=
  df.map (fun r => (r.1, lookupD c r.2))

/-- `telco_split_xy`: the same two stratified splits as `telco_split`,
then each partition is split into features (target column dropped) and
target (target column alone).  `part.drop(columns=[target])` raises a
`KeyError` when the target is absent, embedded as `none`. -/
def telco_split_xy (df : List IRow) (target : String) :
    Option (List IRow × List (String × Cell) × List IRow ×
      List (String × Cell) × List IRow × List (String × Cell)) :=
  if hasColAll target df then
    let p1 := ttsStrat 1 5 666 churnPos df
    let p2 := ttsStrat 3 10 666 churnPos p1.1
    some (dropTarget target p2.1, projTarget target p2.1,
          dropTarget target p2.2, projTarget target p2.2,
          dropTarget target p1.2, projTarget target p1.2)
  else none

/-- Re-attach a target series to a feature partition, appending the
target column to each row (the recombination named by the
specification's refinement claim). -/
def reattach (c : String) (x : List IRow) (y : List (String × Cell)) :
    List IRow :=
  (x.zip y).map (fun p => (p.1.1, p.1.2 ++ [(c, p.2.2)]))

/-- `prep_mall_data` with the caller's aliased dataframe made explicit:
`df['is_female'] = (df.gender == 'Female').astype('int')` mutates the
argument object in place, `df.drop` then rebinds the local name only.
Returns the caller-visible table after the call together with the
`(train, test, validate)` result — note the source's result order. -/
def prep_mall_data (df : List IRow) :
    List IRow × (List IRow × List IRow × List IRow) :=
  let dfMut := df.map (fun r =>
    (r.1, setCol "is_female"
      (Cell.num (if lookupD "gender" r.2 = Cell.str "Female" then 1 else 0))
      r.2))
  let d2 := dfMut.map (fun r => (r.1, dropCols ["gender"] r.2))
  let p1 := train_test_split 3 20 666 d2
  let p2 := train_test_split 3 20 666 p1.1
  (dfMut, (p2.1, p1.2, p2.2))

/-- The fixed column naming `telco_X_scale` assigns to its outputs. -/
def stdCols : List String :=
  ["contract_type", "phone", "internet_type", "senior", "partner",
   "depend", "tenure", "monthly_charges", "total_charges", "num_add_ons",
   "is_male", "tenure_yrs"]

/-- The numeric value of a cell, when it is a number. -/
def cellQ : Cell → Option ℚ
  | Cell.num q => some q
  | _ => none

/-- The numeric values of one column across a partition, in row
order. -/
def colVals (c : String) (df : List IRow) : List ℚ :=
  df.filterMap (fun r => cellQ (lookupD c r.2))

/-- Minimum of a list of rationals (0 for the empty list, which the
scaler never sees). -/
def listMin : List ℚ → ℚ
  | [] => 0
  | h :: t => t.foldl min h

/-- Maximum of a list of rationals. -/
def listMax : List ℚ → ℚ
  | [] => 0
  | h :: t => t.foldl max h

/-- Modelled from the spec: `MinMaxScaler` is an external library.  The
per-column transform is `(x - min) / (max - min)` with the training
minimum and maximum; a zero training range divides by 1 instead (the
library's zero-range guard). -/
def mmScale (m M q : ℚ) : ℚ :=
  (q - m) / (if M = m then 1 else M - m)

/-- The training-fitted min-max transform of one cell of the named
column; a non-numeric cell becomes the missing marker. -/
def mmCell (xtrain : List IRow) (c : String) : Cell → Cell
  | Cell.num q =>
    Cell.num (mmScale (listMin (colVals c xtrain))
      (listMax (colVals c xtrain)) q)
  | _ => Cell.null

/-- The training-fitted min-max transform of every cell of a row. -/
def scaleRow (xtrain : List IRow) (r : Row) : Row :=
  r.map (fun kv => (kv.1, mmCell xtrain kv.1 kv.2))

/-- Apply the training-fitted min-max transform to every row of a
partition. -/
def scaleWith (xtrain : List IRow) (df : List IRow) : List IRow :=
  df.map (fun r => (r.1, scaleRow xtrain r.2))

/-- `df.columns = [...]`: positional renaming of a row's columns. -/
def renameStd (df : List IRow) : List IRow :=
  df.map (fun r => (r.1, stdCols.zip (r.2.map Prod.snd)))

/-- `telco_X_scale`: fit min-max on `X_train` only, apply the same
transform to all three feature tables, and rename the resulting
columns to the fixed twelve-name list. -/
def telco_X_scale (xtr xv xt : List IRow) :
    List IRow × List IRow × List IRow :=
  (renameStd (scaleWith xtr xtr), renameStd (scaleWith xtr xv),
   renameStd (scaleWith xtr xt))

/-- A small concrete prepared table used to instantiate the split
theorems. -/
def exDf : List IRow :=
  [("a", [("churn", Cell.num 1)]), ("b", [("churn", Cell.num 0)]),
   ("c", [("churn", Cell.num 0)]), ("d", [("churn", Cell.num 1)]),
   ("e", [("churn", Cell.num 0)])]

/-- Row content equivalence: same column multiset and the same value
under every column lookup. -/
def rowMatch (a b : Row) : Prop :=
  List.Perm (rowKeys a) (rowKeys b) ∧
  ∀ c, lookupCell c a = lookupCell c b

/-- A one-row mall-customer table exposing the in-place column
assignment of `prep_mall_data`. -/
def exMall : List IRow :=
  [("m1", [("gender", Cell.str "Female"), ("annual_income", Cell.num 15)])]

/-- Modelled from the spec: the raw telco table supplied by the
acquisition collaborator (`acquire.py` is outside this module) — one
row per customer with the field names and domains of the spec's
external-interface section. -/
structure RawVals where
  customer_id : String
  contract_type_id : ℚ
  phone_service : String
  internet_service_type_id : ℚ
  senior_citizen : ℚ
  partner : String
  dependents : String
  tenure : ℚ
  monthly_charges : ℚ
  total_charges : String
  churn : String
  gender : String
  online_security : String
  online_backup : String
  device_protection : String
  tech_support : String
  streaming_tv : String
  streaming_movies : String

/-- The raw row built from the raw field values. -/
def mkRaw (v : RawVals) : Row :=
  [("customer_id", Cell.str v.customer_id),
   ("contract_type_id", Cell.num v.contract_type_id),
   ("phone_service", Cell.str v.phone_service),
   ("internet_service_type_id", Cell.num v.internet_service_type_id),
   ("senior_citizen", Cell.num v.senior_citizen),
   ("partner", Cell.str v.partner),
   ("dependents", Cell.str v.dependents),
   ("tenure", Cell.num v.tenure),
   ("monthly_charges", Cell.num v.monthly_charges),
   ("total_charges", Cell.str v.total_charges),
   ("churn", Cell.str v.churn),
   ("gender", Cell.str v.gender),
   ("online_security", Cell.str v.online_security),
   ("online_backup", Cell.str v.online_backup),
   ("device_protection", Cell.str v.device_protection),
   ("tech_support", Cell.str v.tech_support),
   ("streaming_tv", Cell.str v.streaming_tv),
   ("streaming_movies", Cell.str v.streaming_movies)]

/-- The prepared row that `prepRow` produces from a raw row of the
standard schema, column by column. -/
def prepVals (v : RawVals) : Row :=
  [("contract_type", contractMap (Cell.num v.contract_type_id)),
   ("phone", ynMap (Cell.str v.phone_service)),
   ("internet_type", internetMap (Cell.num v.internet_service_type_id)),
   ("senior", Cell.num v.senior_citizen),
   ("partner", ynMap (Cell.str v.partner)),
   ("depend", ynMap (Cell.str v.dependents)),
   ("tenure", Cell.num v.tenure),
   ("monthly_charges", Cell.num v.monthly_charges),
   ("total_charges", toNumericCell (Cell.str v.total_charges)),
   ("churn", ynMap (Cell.str v.churn)),
   ("num_add_ons",
     cellAdd (cellAdd (cellAdd (cellAdd (cellAdd
       (addOnMap (Cell.str v.online_security))
       (addOnMap (Cell.str v.online_backup)))
       (addOnMap (Cell.str v.device_protection)))
       (addOnMap (Cell.str v.tech_support)))
       (addOnMap (Cell.str v.streaming_tv)))
       (addOnMap (Cell.str v.streaming_movies))),
   ("is_male", genderMap (Cell.str v.gender)),
   ("tenure_yrs", tenureYrsCell (Cell.num v.tenure))]

/-- The raw row without its `customer_id` column, as produced by
`set_index`. -/
def mkRawBody (v : RawVals) : Row :=
  [("contract_type_id", Cell.num v.contract_type_id),
   ("phone_service", Cell.str v.phone_service),
   ("internet_service_type_id", Cell.num v.internet_service_type_id),
   ("senior_citizen", Cell.num v.senior_citizen),
   ("partner", Cell.str v.partner),
   ("dependents", Cell.str v.dependents),
   ("tenure", Cell.num v.tenure),
   ("monthly_charges", Cell.num v.monthly_charges),
   ("total_charges", Cell.str v.total_charges),
   ("churn", Cell.str v.churn),
   ("gender", Cell.str v.gender),
   ("online_security", Cell.str v.online_security),
   ("online_backup", Cell.str v.online_backup),
   ("device_protection", Cell.str v.device_protection),
   ("tech_support", Cell.str v.tech_support),
   ("streaming_tv", Cell.str v.streaming_tv),
   ("streaming_movies", Cell.str v.streaming_movies)]

/-- The concrete raw input row of the specification's end-to-end
test case; no `customer_id`, `senior_citizen` or `monthly_charges`
column is given there. -/
def c8row : Row :=
  [("contract_type_id", Cell.num 1),
   ("internet_service_type_id", Cell.num 3),
   ("phone_service", Cell.str "Yes"), ("gender", Cell.str "Male"),
   ("partner", Cell.str "No"), ("dependents", Cell.str "No"),
   ("churn", Cell.str "No"), ("tenure", Cell.num 5),
   ("online_security", Cell.str "Yes"), ("online_backup", Cell.str "No"),
   ("device_protection", Cell.str "No"), ("tech_support", Cell.str "No"),
   ("streaming_tv", Cell.str "No"), ("streaming_movies", Cell.str "No"),
   ("total_charges", Cell.str "100.5")]

/-- The prepared row the specification's end-to-end example expects
(`0.42 = 21/50`, `100.5 = 201/2`). -/
def c8out : Row :=
  [("contract_type", Cell.num 0), ("internet_type", Cell.num 0),
   ("phone", Cell.num 1), ("partner", Cell.num 0),
   ("depend", Cell.num 0), ("churn", Cell.num 0),
   ("tenure", Cell.num 5), ("total_charges", Cell.num (201 / 2)),
   ("num_add_ons", Cell.num 1), ("is_male", Cell.num 1),
   ("tenure_yrs", Cell.num (21 / 50))]

/-- The number of the six add-on fields equal to `Yes`. -/
def yesCount (v : RawVals) : ℚ :=
  (if v.online_security = "Yes" then 1 else 0) +
  (if v.online_backup = "Yes" then 1 else 0) +
  (if v.device_protection = "Yes" then 1 else 0) +
  (if v.tech_support = "Yes" then 1 else 0) +
  (if v.streaming_tv = "Yes" then 1 else 0) +
  (if v.streaming_movies = "Yes" then 1 else 0)

/-- A concrete raw customer row used to instantiate the encoder
theorems. -/
def exRaw : RawVals :=
  ⟨"0001", 1, "Yes", 3, 0, "No", "No", 5, 50, "100.5", "No", "Male",
   "Yes", "No", "No", "No", "No", "No"⟩

/-- A raw customer row with whitespace-only cumulative charge, dropped
by the preparation. -/
def exRawWs : RawVals :=
  ⟨"0002", 2, "No", 1, 0, "No", "No", 0, 20, " ", "No", "Female",
   "No", "No", "No", "No", "No", "No"⟩

/-- A standard-schema feature row with the same numeric value in every
column. -/
def mkX (i : String) (q : ℚ) : IRow :=
  (i, stdCols.map (fun c => (c, Cell.num q)))

/-- A two-row training feature table with per-column range [0, 1]. -/
def exTr : List IRow := [mkX "a" 0, mkX "b" 1]

/-- A one-row feature table whose values exceed the training range. -/
def exOut : List IRow := [mkX "c" 2]

theorem round2_eq (q : ℚ) (z : ℤ)
    (h : (z : ℚ) ≤ q * 100 + 1 / 2 ∧ q * 100 + 1 / 2 < z + 1) :
    round2 q = (z : ℚ) / 100 := by
  have hf : ⌊q * 100 + 1 / 2⌋ = z := Int.floor_eq_iff.mpr h
  rw [round2, round_eq, hf]

theorem pickOut_perm {α : Type} :
    ∀ (l : List α) (i : ℕ) (a : α) (r : List α),
      pickOut i l = some (a, r) → List.Perm (a :: r) l := by
  intro l
  induction l with
  | nil => intro i a r h; simp [pickOut] at h
  | cons x xs ih =>
    intro i a r h
    by_cases hi : i = 0
    · subst hi
      simp [pickOut] at h
      rw [h.1, h.2]
    · rw [pickOut, if_neg hi] at h
      cases hr : pickOut (i - 1) xs with
      | none => rw [hr] at h; simp at h
      | some p =>
        rw [hr] at h
        rcases p with ⟨a', r'⟩
        simp only [Option.map_some', Option.some.injEq, Prod.mk.injEq] at h
        obtain ⟨ha, hrr⟩ := h
        subst ha
        subst hrr
        exact (List.Perm.swap _ _ _).trans ((ih _ _ _ hr).cons x)

theorem fyGo_perm {α : Type} :
    ∀ (fuel s : ℕ) (l : List α), List.Perm (fyGo fuel s l) l := by
  intro fuel
  induction fuel with
  | zero => intro s l; simp [fyGo]
  | succ n ih =>
    intro s l
    rw [fyGo]
    cases hp : pickOut (s % l.length) l with
    | none => exact List.Perm.refl l
    | some p =>
      rcases p with ⟨a, r⟩
      exact ((ih (lcg s) r).cons a).trans (pickOut_perm l _ a r hp)

theorem fyShuffle_perm {α : Type} (s : ℕ) (l : List α) :
    List.Perm (fyShuffle s l) l :=
  fyGo_perm l.length s l

/-- The two halves returned by the plain split are together a
permutation of the input. -/
theorem tts_perm {α : Type} (num den seed : ℕ) (rows : List α) :
    List.Perm ((train_test_split num den seed rows).1 ++
      (train_test_split num den seed rows).2) rows := by
  unfold train_test_split
  refine List.Perm.trans List.perm_append_comm ?_
  rw [List.take_append_drop]
  exact fyShuffle_perm seed rows

/-- Four-way append shuffle: the middle two blocks swap. -/
theorem append_swap_mid {α : Type} (a b c d : List α) :
    List.Perm ((a ++ b) ++ (c ++ d)) ((a ++ c) ++ (b ++ d)) := by
  rw [List.append_assoc, List.append_assoc, ← List.append_assoc b,
    ← List.append_assoc c]
  exact (List.perm_append_comm.append_right d).append_left a

/-- Dropping then taking is a permutation of the list. -/
theorem drop_append_take_perm {α : Type} (n : ℕ) (l : List α) :
    List.Perm (l.drop n ++ l.take n) l := by
  refine List.Perm.trans List.perm_append_comm ?_
  rw [List.take_append_drop]

/-- The two halves returned by the stratified split are together a
permutation of the input. -/
theorem ttsStrat_perm {α : Type} (num den seed : ℕ) (isPos : α → Bool)
    (rows : List α) :
    List.Perm ((ttsStrat num den seed isPos rows).1 ++
      (ttsStrat num den seed isPos rows).2) rows := by
  unfold ttsStrat
  simp only [List.partition_eq_filter_filter]
  refine List.Perm.trans (append_swap_mid _ _ _ _) ?_
  refine List.Perm.trans
    (((drop_append_take_perm _ _).trans (fyShuffle_perm _ _)).append
      ((drop_append_take_perm _ _).trans (fyShuffle_perm _ _))) ?_
  exact List.filter_append_perm isPos rows

/-- The three partitions of `telco_split` are together a permutation of
the input dataframe. -/
theorem telco_split_perm (df : List IRow) :
    List.Perm ((telco_split df).1 ++ (telco_split df).2.1 ++
      (telco_split df).2.2) df := by
  unfold telco_split
  refine List.Perm.trans ?_ (ttsStrat_perm 1 5 666 churnPos df)
  refine List.Perm.append_right _ ?_
  exact ttsStrat_perm 3 10 666 churnPos _

/-- C1: for every prepared table whose row identifiers are distinct,
the three partitions returned by `telco_split` are pairwise disjoint
and their sizes sum to the size of the table: no row is lost and no row
identifier occurs in more than one partition. -/
theorem telco_split_partition (df : List IRow)
    (h : (df.map Prod.fst).Nodup) :
    (telco_split df).1.length + (telco_split df).2.1.length +
        (telco_split df).2.2.length = df.length
    ∧ List.Disjoint ((telco_split df).1.map Prod.fst)
        ((telco_split df).2.1.map Prod.fst)
    ∧ List.Disjoint ((telco_split df).1.map Prod.fst)
        ((telco_split df).2.2.map Prod.fst)
    ∧ List.Disjoint ((telco_split df).2.1.map Prod.fst)
        ((telco_split df).2.2.map Prod.fst) := by
  have hp := telco_split_perm df
  have hlen := hp.length_eq
  rw [List.length_append, List.length_append] at hlen
  refine ⟨hlen, ?_⟩
  have hids := hp.map Prod.fst
  have hnd : (((telco_split df).1 ++ (telco_split df).2.1 ++
      (telco_split df).2.2).map Prod.fst).Nodup := hids.nodup_iff.mpr h
  rw [List.map_append, List.map_append] at hnd
  rcases List.nodup_append.mp hnd with ⟨h12, _, d123⟩
  rcases List.nodup_append.mp h12 with ⟨_, _, d12⟩
  refine ⟨d12, ?_, ?_⟩
  · intro a ha hb
    exact d123 (List.mem_append_left _ ha) hb
  · intro a ha hb
    exact d123 (List.mem_append_right _ ha) hb

theorem telco_split_partition_witness :
    (exDf.map Prod.fst).Nodup ∧
    ((telco_split exDf).1.length + (telco_split exDf).2.1.length +
        (telco_split exDf).2.2.length = exDf.length
    ∧ List.Disjoint ((telco_split exDf).1.map Prod.fst)
        ((telco_split exDf).2.1.map Prod.fst)
    ∧ List.Disjoint ((telco_split exDf).1.map Prod.fst)
        ((telco_split exDf).2.2.map Prod.fst)
    ∧ List.Disjoint ((telco_split exDf).2.1.map Prod.fst)
        ((telco_split exDf).2.2.map Prod.fst)) :=
  ⟨by decide, telco_split_partition exDf (by decide)⟩

/-- C2: the partitioner is deterministic — with the seed 666 hard-coded
in `telco_split`, two calls on identical prepared tables return
identical partitions: the same rows in the same partitions. -/
theorem telco_split_deterministic (df₁ df₂ : List IRow)
    (h : df₁ = df₂) : telco_split df₁ = telco_split df₂ := by rw [h]

theorem telco_split_deterministic_witness :
    exDf = exDf ∧ telco_split exDf = telco_split exDf :=
  ⟨rfl, telco_split_deterministic exDf exDf rfl⟩

theorem lookupCell_append_some {c : String} {v : Cell} {r₁ : Row}
    (r₂ : Row) (h : lookupCell c r₁ = some v) :
    lookupCell c (r₁ ++ r₂) = some v := by
  induction r₁ with
  | nil => simp [lookupCell] at h
  | cons kv r ih =>
    obtain ⟨k, w⟩ := kv
    rw [List.cons_append, lookupCell]
    rw [lookupCell] at h
    by_cases hk : k = c
    · rw [if_pos hk] at h ⊢; exact h
    · rw [if_neg hk] at h ⊢; exact ih h

theorem lookupCell_append_none {c : String} {r₁ : Row} (r₂ : Row)
    (h : lookupCell c r₁ = none) :
    lookupCell c (r₁ ++ r₂) = lookupCell c r₂ := by
  induction r₁ with
  | nil => simp
  | cons kv r ih =>
    obtain ⟨k, w⟩ := kv
    rw [List.cons_append, lookupCell]
    rw [lookupCell] at h
    by_cases hk : k = c
    · rw [if_pos hk] at h; exact absurd h (by simp)
    · rw [if_neg hk] at h ⊢; exact ih h

theorem lookupCell_isSome_iff (c : String) (r : Row) :
    (lookupCell c r).isSome ↔ c ∈ rowKeys r := by
  induction r with
  | nil => simp [lookupCell, rowKeys]
  | cons kv r ih =>
    obtain ⟨k, w⟩ := kv
    rw [lookupCell, rowKeys]
    by_cases hk : k = c
    · subst hk; simp
    · rw [if_neg hk]
      simp only [List.map_cons, List.mem_cons]
      rw [ih, rowKeys]
      constructor
      · exact Or.inr
      · rintro (h | h)
        · exact absurd h.symm hk
        · exact h

theorem lookupCell_dropCol_self (t : String) (r : Row) :
    lookupCell t (dropCol t r) = none := by
  induction r with
  | nil => simp [dropCol, lookupCell]
  | cons kv r ih =>
    obtain ⟨k, w⟩ := kv
    by_cases hk : k = t
    · subst hk
      simpa [dropCol] using ih
    · rw [dropCol] at ih ⊢
      rw [List.filter_cons_of_pos (by simpa using hk), lookupCell,
        if_neg hk]
      exact ih

theorem lookupCell_dropCol_ne {c t : String} (r : Row) (h : c ≠ t) :
    lookupCell c (dropCol t r) = lookupCell c r := by
  induction r with
  | nil => simp [dropCol]
  | cons kv r ih =>
    obtain ⟨k, w⟩ := kv
    by_cases hk : k = t
    · subst hk
      rw [dropCol, List.filter_cons_of_neg (by simp), lookupCell,
        if_neg (fun hc => h hc.symm)]
      exact ih
    · rw [dropCol, List.filter_cons_of_pos (by simpa using hk),
        lookupCell, lookupCell]
      by_cases hc : k = c
      · rw [if_pos hc, if_pos hc]
      · rw [if_neg hc, if_neg hc]; exact ih

theorem rowKeys_dropCol (t : String) (r : Row) :
    rowKeys (dropCol t r) = (rowKeys r).filter (fun k => decide (k ≠ t)) := by
  induction r with
  | nil => rfl
  | cons kv r ih =>
    obtain ⟨k, w⟩ := kv
    by_cases hk : k = t
    · subst hk
      simp only [dropCol, rowKeys, List.map_cons] at ih ⊢
      rw [List.filter_cons_of_neg (by simp),
        List.filter_cons_of_neg (by simp)]
      exact ih
    · simp only [dropCol, rowKeys, List.map_cons] at ih ⊢
      rw [List.filter_cons_of_pos (by simpa using hk),
        List.filter_cons_of_pos (by simpa using hk), List.map_cons, ih]

theorem mapCol_cons (c : String) (f : Cell → Cell) (k : String)
    (w : Cell) (r : Row) :
    mapCol c f ((k, w) :: r) =
      (if k = c then (k, f w) else (k, w)) :: mapCol c f r := by
  by_cases hk : k = c <;> simp [mapCol, hk]

theorem lookupCell_mapCol_self (c : String) (f : Cell → Cell) (r : Row) :
    lookupCell c (mapCol c f r) = (lookupCell c r).map f := by
  induction r with
  | nil => simp [mapCol, lookupCell]
  | cons kv r ih =>
    obtain ⟨k, w⟩ := kv
    rw [mapCol_cons]
    by_cases hk : k = c
    · rw [if_pos hk, lookupCell, if_pos hk, lookupCell, if_pos hk,
        Option.map_some']
    · rw [if_neg hk, lookupCell, if_neg hk, lookupCell, if_neg hk]
      exact ih

theorem lookupCell_mapCol_ne {c' c : String} (f : Cell → Cell) (r : Row)
    (h : c' ≠ c) :
    lookupCell c' (mapCol c f r) = lookupCell c' r := by
  induction r with
  | nil => simp [mapCol, lookupCell]
  | cons kv r ih =>
    obtain ⟨k, w⟩ := kv
    rw [mapCol_cons]
    by_cases hk : k = c
    · have hkc : k ≠ c' := fun hc => h (hc ▸ hk)
      rw [if_pos hk, lookupCell, if_neg hkc, lookupCell, if_neg hkc]
      exact ih
    · rw [if_neg hk, lookupCell, lookupCell]
      by_cases hc : k = c'
      · rw [if_pos hc, if_pos hc]
      · rw [if_neg hc, if_neg hc]; exact ih

theorem rowKeys_mapCol (c : String) (f : Cell → Cell) (r : Row) :
    rowKeys (mapCol c f r) = rowKeys r := by
  induction r with
  | nil => rfl
  | cons kv r ih =>
    obtain ⟨k, w⟩ := kv
    rw [mapCol_cons]
    by_cases hk : k = c
    · rw [if_pos hk, rowKeys, rowKeys, List.map_cons, List.map_cons]
      rw [rowKeys] at ih
      rw [ih, rowKeys]
    · rw [if_neg hk, rowKeys, rowKeys, List.map_cons, List.map_cons]
      rw [rowKeys] at ih
      rw [ih, rowKeys]

theorem lookupCell_setCol_self (c : String) (v : Cell) (r : Row) :
    lookupCell c (setCol c v r) = some v := by
  rw [setCol]
  by_cases hm : c ∈ rowKeys r
  · rw [if_pos hm, lookupCell_mapCol_self]
    obtain ⟨w, hw⟩ := Option.isSome_iff_exists.mp
      ((lookupCell_isSome_iff c r).mpr hm)
    rw [hw, Option.map_some']
  · rw [if_neg hm]
    have hnone : lookupCell c r = none := by
      by_contra hne
      exact hm ((lookupCell_isSome_iff c r).mp
        (Option.ne_none_iff_isSome.mp hne))
    rw [lookupCell_append_none _ hnone, lookupCell, if_pos rfl]

theorem lookupCell_setCol_ne {c' c : String} (v : Cell) (r : Row)
    (h : c' ≠ c) :
    lookupCell c' (setCol c v r) = lookupCell c' r := by
  rw [setCol]
  by_cases hm : c ∈ rowKeys r
  · rw [if_pos hm, lookupCell_mapCol_ne _ _ h]
  · rw [if_neg hm]
    cases hl : lookupCell c' r with
    | some w => rw [lookupCell_append_some _ hl]
    | none =>
      rw [lookupCell_append_none _ hl, lookupCell,
        if_neg (fun hc => h hc.symm), lookupCell]

/-- When the target column is present in every row, `telco_split_xy`
succeeds and returns exactly the partitions of `telco_split` with the
target column dropped, respectively projected. -/
theorem telco_split_xy_some (df : List IRow) (target : String)
    (hA : hasColAll target df = true) :
    telco_split_xy df target = some
      (dropTarget target (telco_split df).1,
       projTarget target (telco_split df).1,
       dropTarget target (telco_split df).2.1,
       projTarget target (telco_split df).2.1,
       dropTarget target (telco_split df).2.2,
       projTarget target (telco_split df).2.2) := by
  rw [telco_split_xy, if_pos hA]
  rfl

/-- C7: the feature-target split is a pure projection with an error on
a missing target — when the target column is absent `telco_split_xy`
fails; when it is present it returns each partition with exactly the
target column removed (all other columns and values unchanged, the
target gone) together with the target column itself. -/
theorem telco_split_xy_projection (df : List IRow) (target : String) :
    (hasColAll target df = false → telco_split_xy df target = none)
    ∧ (hasColAll target df = true → telco_split_xy df target = some
        (dropTarget target (telco_split df).1,
         projTarget target (telco_split df).1,
         dropTarget target (telco_split df).2.1,
         projTarget target (telco_split df).2.1,
         dropTarget target (telco_split df).2.2,
         projTarget target (telco_split df).2.2))
    ∧ (∀ r : Row, lookupCell target (dropCol target r) = none)
    ∧ (∀ r : Row, ∀ c, c ≠ target →
        lookupCell c (dropCol target r) = lookupCell c r)
    ∧ (∀ r : Row, rowKeys (dropCol target r) =
        (rowKeys r).filter (fun k => decide (k ≠ target)))
    ∧ (∀ p : List IRow,
        projTarget target p = p.map (fun r => (r.1, lookupD target r.2))) := by
  refine ⟨?_, telco_split_xy_some df target, ?_, ?_, ?_, ?_⟩
  · intro hA
    rw [telco_split_xy, if_neg (by rw [hA]; exact Bool.false_ne_true)]
  · exact fun r => lookupCell_dropCol_self target r
  · exact fun r c hc => lookupCell_dropCol_ne r hc
  · exact fun r => rowKeys_dropCol target r
  · exact fun p => rfl

theorem telco_split_xy_projection_witness :
    hasColAll "churn" exDf = true ∧
    telco_split_xy exDf "churn" = some
      (dropTarget "churn" (telco_split exDf).1,
       projTarget "churn" (telco_split exDf).1,
       dropTarget "churn" (telco_split exDf).2.1,
       projTarget "churn" (telco_split exDf).2.1,
       dropTarget "churn" (telco_split exDf).2.2,
       projTarget "churn" (telco_split exDf).2.2) :=
  ⟨by decide, (telco_split_xy_projection exDf "churn").2.1 (by decide)⟩

/-- Re-attaching the dropped target column to a row restores a row
with the same columns and the same lookups. -/
theorem reattach_row (t : String) (r : Row) (ht : t ∈ rowKeys r)
    (hn : (rowKeys r).Nodup) :
    rowMatch (dropCol t r ++ [(t, lookupD t r)]) r := by
  constructor
  · rw [rowKeys, List.map_append]
    have h1 : List.map Prod.fst [(t, lookupD t r)] = [t] := rfl
    rw [h1, ← rowKeys, rowKeys_dropCol]
    have h2 : (rowKeys r).filter (fun k => decide (k ≠ t)) =
        (rowKeys r).erase t := by
      rw [hn.erase_eq_filter t]
      refine List.filter_congr ?_
      intro x _
      by_cases hx : x = t <;> simp [hx]
    rw [h2]
    exact (List.perm_append_singleton t _).trans
      (List.perm_cons_erase ht).symm
  · intro c
    by_cases hc : c = t
    · subst hc
      rw [lookupCell_append_none _ (lookupCell_dropCol_self c r)]
      obtain ⟨w, hw⟩ := Option.isSome_iff_exists.mp
        ((lookupCell_isSome_iff c r).mpr ht)
      rw [hw, lookupCell, if_pos rfl, lookupD, hw, Option.getD_some]
    · rw [← lookupCell_dropCol_ne r hc]
      cases hl : lookupCell c (dropCol t r) with
      | some w => rw [lookupCell_append_some _ hl]
      | none =>
        rw [lookupCell_append_none _ hl, lookupCell,
          if_neg (fun ht' => hc ht'.symm), lookupCell]

/-- Re-attaching the target to a partition's feature/target split
restores the partition row by row. -/
theorem reattach_forall (t : String) (p : List IRow)
    (hp : ∀ r ∈ p, t ∈ rowKeys r.2 ∧ (rowKeys r.2).Nodup) :
    List.Forall₂ (fun a b => a.1 = b.1 ∧ rowMatch a.2 b.2)
      (reattach t (dropTarget t p) (projTarget t p)) p := by
  induction p with
  | nil => exact List.Forall₂.nil
  | cons r p ih =>
    have hr := hp r (List.mem_cons_self r p)
    refine List.Forall₂.cons ⟨rfl, reattach_row t r.2 hr.1 hr.2⟩ ?_
    exact ih (fun r' hr' => hp r' (List.mem_cons_of_mem r hr'))

/-- C10: `telco_split_xy` agrees with `telco_split` — on any prepared
table whose rows carry the target column (with duplicate-free column
names), re-attaching each returned target column to its feature table
restores, row by row and column by column, exactly the train, validate
and test partitions of `telco_split`. -/
theorem telco_split_xy_refines (df : List IRow) (target : String)
    (h : ∀ r ∈ df, target ∈ rowKeys r.2 ∧ (rowKeys r.2).Nodup) :
    ∃ xtr ytr xv yv xt yt,
      telco_split_xy df target = some (xtr, ytr, xv, yv, xt, yt)
      ∧ List.Forall₂ (fun a b => a.1 = b.1 ∧ rowMatch a.2 b.2)
          (reattach target xtr ytr) (telco_split df).1
      ∧ List.Forall₂ (fun a b => a.1 = b.1 ∧ rowMatch a.2 b.2)
          (reattach target xv yv) (telco_split df).2.1
      ∧ List.Forall₂ (fun a b => a.1 = b.1 ∧ rowMatch a.2 b.2)
          (reattach target xt yt) (telco_split df).2.2 := by
  have hA : hasColAll target df = true := by
    rw [hasColAll, List.all_eq_true]
    intro r hr
    exact decide_eq_true (h r hr).1
  have hperm := telco_split_perm df
  refine ⟨_, _, _, _, _, _, telco_split_xy_some df target hA, ?_, ?_, ?_⟩
  · refine reattach_forall target _ (fun r hr => h r ?_)
    exact hperm.mem_iff.mp
      (List.mem_append_left _ (List.mem_append_left _ hr))
  · refine reattach_forall target _ (fun r hr => h r ?_)
    exact hperm.mem_iff.mp
      (List.mem_append_left _ (List.mem_append_right _ hr))
  · refine reattach_forall target _ (fun r hr => h r ?_)
    exact hperm.mem_iff.mp (List.mem_append_right _ hr)

theorem telco_split_xy_refines_witness :
    (∀ r ∈ exDf, "churn" ∈ rowKeys r.2 ∧ (rowKeys r.2).Nodup) ∧
    (∃ xtr ytr xv yv xt yt,
      telco_split_xy exDf "churn" = some (xtr, ytr, xv, yv, xt, yt)
      ∧ List.Forall₂ (fun a b => a.1 = b.1 ∧ rowMatch a.2 b.2)
          (reattach "churn" xtr ytr) (telco_split exDf).1
      ∧ List.Forall₂ (fun a b => a.1 = b.1 ∧ rowMatch a.2 b.2)
          (reattach "churn" xv yv) (telco_split exDf).2.1
      ∧ List.Forall₂ (fun a b => a.1 = b.1 ∧ rowMatch a.2 b.2)
          (reattach "churn" xt yt) (telco_split exDf).2.2) :=
  ⟨by decide, telco_split_xy_refines exDf "churn" (by decide)⟩

/-- C9 counterexample: `prep_mall_data` mutates the table it receives —
`df['is_female'] = (df.gender == 'Female').astype('int')` assigns a
column on the caller's object, so after the call the caller's table
differs from what was passed in. -/
theorem prep_mall_data_mutates_input :
    (prep_mall_data exMall).1 ≠ exMall := by decide

/-- C9 amended: `prep_mall_data` mutates its argument exactly by the
in-place `is_female` column assignment — after the call the caller's
table has the same rows in order, every column other than `is_female`
unchanged, and `is_female` set to the female indicator of that row.
(The later `df.drop` and the two splits only rebind the local name and
build new lists, so they do not touch the caller's table.) -/
theorem prep_mall_data_frame_effect (df : List IRow) :
    List.Forall₂ (fun a b => a.1 = b.1
      ∧ (∀ c, c ≠ "is_female" → lookupCell c a.2 = lookupCell c b.2)
      ∧ lookupCell "is_female" a.2 = some (Cell.num
          (if lookupD "gender" b.2 = Cell.str "Female" then 1 else 0)))
      (prep_mall_data df).1 df := by
  have hdf : (prep_mall_data df).1 = df.map (fun r =>
      (r.1, setCol "is_female"
        (Cell.num (if lookupD "gender" r.2 = Cell.str "Female" then 1 else 0))
        r.2)) := rfl
  rw [hdf]
  clear hdf
  induction df with
  | nil => exact List.Forall₂.nil
  | cons r p ih =>
    refine List.Forall₂.cons ⟨rfl, ?_, lookupCell_setCol_self _ _ _⟩ ih
    exact fun c hc => lookupCell_setCol_ne _ _ hc

/-- `set_index` on a raw row of the standard schema. -/
theorem setIndex_mkRaw (v : RawVals) :
    setIndex (mkRaw v) = (v.customer_id, mkRawBody v) := by
  simp [setIndex, mkRaw, mkRawBody, dropCols, lookupCell]

set_option maxHeartbeats 1000000 in
/-- Evaluation of the full per-row pipeline on a raw row of the
standard schema, stage by stage in the order of the source lines. -/
theorem prepRow_mkRaw (v : RawVals) :
    prepRow (mkRawBody v) = prepVals v := by
  have h1 : mapCol "streaming_movies" addOnMap
      (mapCol "streaming_tv" addOnMap
      (mapCol "tech_support" addOnMap
      (mapCol "device_protection" addOnMap
      (mapCol "online_backup" addOnMap
      (mapCol "online_security" addOnMap
      (mkRawBody v)))))) =
      [("contract_type_id", Cell.num v.contract_type_id),
       ("phone_service", Cell.str v.phone_service),
       ("internet_service_type_id", Cell.num v.internet_service_type_id),
       ("senior_citizen", Cell.num v.senior_citizen),
       ("partner", Cell.str v.partner),
       ("dependents", Cell.str v.dependents), ("tenure", Cell.num v.tenure),
       ("monthly_charges", Cell.num v.monthly_charges),
       ("total_charges", Cell.str v.total_charges),
       ("churn", Cell.str v.churn), ("gender", Cell.str v.gender),
       ("online_security", addOnMap (Cell.str v.online_security)),
       ("online_backup", addOnMap (Cell.str v.online_backup)),
       ("device_protection", addOnMap (Cell.str v.device_protection)),
       ("tech_support", addOnMap (Cell.str v.tech_support)),
       ("streaming_tv", addOnMap (Cell.str v.streaming_tv)),
       ("streaming_movies", addOnMap (Cell.str v.streaming_movies))] := by
    simp [mapCol, mkRawBody]
  have h2 : addOnSum
      [("contract_type_id", Cell.num v.contract_type_id),
       ("phone_service", Cell.str v.phone_service),
       ("internet_service_type_id", Cell.num v.internet_service_type_id),
       ("senior_citizen", Cell.num v.senior_citizen),
       ("partner", Cell.str v.partner),
       ("dependents", Cell.str v.dependents), ("tenure", Cell.num v.tenure),
       ("monthly_charges", Cell.num v.monthly_charges),
       ("total_charges", Cell.str v.total_charges),
       ("churn", Cell.str v.churn), ("gender", Cell.str v.gender),
       ("online_security", addOnMap (Cell.str v.online_security)),
       ("online_backup", addOnMap (Cell.str v.online_backup)),
       ("device_protection", addOnMap (Cell.str v.device_protection)),
       ("tech_support", addOnMap (Cell.str v.tech_support)),
       ("streaming_tv", addOnMap (Cell.str v.streaming_tv)),
       ("streaming_movies", addOnMap (Cell.str v.streaming_movies))] =
      cellAdd (cellAdd (cellAdd (cellAdd (cellAdd (addOnMap (Cell.str v.online_security)) (addOnMap (Cell.str v.online_backup))) (addOnMap (Cell.str v.device_protection))) (addOnMap (Cell.str v.tech_support))) (addOnMap (Cell.str v.streaming_tv))) (addOnMap (Cell.str v.streaming_movies)) := by
    simp [addOnSum, lookupD, lookupCell]
  have h3 : setCol "num_add_ons"
      (cellAdd (cellAdd (cellAdd (cellAdd (cellAdd (addOnMap (Cell.str v.online_security)) (addOnMap (Cell.str v.online_backup))) (addOnMap (Cell.str v.device_protection))) (addOnMap (Cell.str v.tech_support))) (addOnMap (Cell.str v.streaming_tv))) (addOnMap (Cell.str v.streaming_movies)))
      [("contract_type_id", Cell.num v.contract_type_id),
       ("phone_service", Cell.str v.phone_service),
       ("internet_service_type_id", Cell.num v.internet_service_type_id),
       ("senior_citizen", Cell.num v.senior_citizen),
       ("partner", Cell.str v.partner),
       ("dependents", Cell.str v.dependents), ("tenure", Cell.num v.tenure),
       ("monthly_charges", Cell.num v.monthly_charges),
       ("total_charges", Cell.str v.total_charges),
       ("churn", Cell.str v.churn), ("gender", Cell.str v.gender),
       ("online_security", addOnMap (Cell.str v.online_security)),
       ("online_backup", addOnMap (Cell.str v.online_backup)),
       ("device_protection", addOnMap (Cell.str v.device_protection)),
       ("tech_support", addOnMap (Cell.str v.tech_support)),
       ("streaming_tv", addOnMap (Cell.str v.streaming_tv)),
       ("streaming_movies", addOnMap (Cell.str v.streaming_movies))] =
      [("contract_type_id", Cell.num v.contract_type_id),
       ("phone_service", Cell.str v.phone_service),
       ("internet_service_type_id", Cell.num v.internet_service_type_id),
       ("senior_citizen", Cell.num v.senior_citizen),
       ("partner", Cell.str v.partner),
       ("dependents", Cell.str v.dependents), ("tenure", Cell.num v.tenure),
       ("monthly_charges", Cell.num v.monthly_charges),
       ("total_charges", Cell.str v.total_charges),
       ("churn", Cell.str v.churn), ("gender", Cell.str v.gender),
       ("online_security", addOnMap (Cell.str v.online_security)),
       ("online_backup", addOnMap (Cell.str v.online_backup)),
       ("device_protection", addOnMap (Cell.str v.device_protection)),
       ("tech_support", addOnMap (Cell.str v.tech_support)),
       ("streaming_tv", addOnMap (Cell.str v.streaming_tv)),
       ("streaming_movies", addOnMap (Cell.str v.streaming_movies)),
       ("num_add_ons", cellAdd (cellAdd (cellAdd (cellAdd (cellAdd (addOnMap (Cell.str v.online_security)) (addOnMap (Cell.str v.online_backup))) (addOnMap (Cell.str v.device_protection))) (addOnMap (Cell.str v.tech_support))) (addOnMap (Cell.str v.streaming_tv))) (addOnMap (Cell.str v.streaming_movies)))] := by
    simp [setCol, rowKeys, mapCol]
  have h4 : dropCols addOnCols
      [("contract_type_id", Cell.num v.contract_type_id),
       ("phone_service", Cell.str v.phone_service),
       ("internet_service_type_id", Cell.num v.internet_service_type_id),
       ("senior_citizen", Cell.num v.senior_citizen),
       ("partner", Cell.str v.partner),
       ("dependents", Cell.str v.dependents), ("tenure", Cell.num v.tenure),
       ("monthly_charges", Cell.num v.monthly_charges),
       ("total_charges", Cell.str v.total_charges),
       ("churn", Cell.str v.churn), ("gender", Cell.str v.gender),
       ("online_security", addOnMap (Cell.str v.online_security)),
       ("online_backup", addOnMap (Cell.str v.online_backup)),
       ("device_protection", addOnMap (Cell.str v.device_protection)),
       ("tech_support", addOnMap (Cell.str v.tech_support)),
       ("streaming_tv", addOnMap (Cell.str v.streaming_tv)),
       ("streaming_movies", addOnMap (Cell.str v.streaming_movies)),
       ("num_add_ons", cellAdd (cellAdd (cellAdd (cellAdd (cellAdd (addOnMap (Cell.str v.online_security)) (addOnMap (Cell.str v.online_backup))) (addOnMap (Cell.str v.device_protection))) (addOnMap (Cell.str v.tech_support))) (addOnMap (Cell.str v.streaming_tv))) (addOnMap (Cell.str v.streaming_movies)))] =
      [("contract_type_id", Cell.num v.contract_type_id),
       ("phone_service", Cell.str v.phone_service),
       ("internet_service_type_id", Cell.num v.internet_service_type_id),
       ("senior_citizen", Cell.num v.senior_citizen),
       ("partner", Cell.str v.partner),
       ("dependents", Cell.str v.dependents), ("tenure", Cell.num v.tenure),
       ("monthly_charges", Cell.num v.monthly_charges),
       ("total_charges", Cell.str v.total_charges),
       ("churn", Cell.str v.churn), ("gender", Cell.str v.gender),
       ("num_add_ons", cellAdd (cellAdd (cellAdd (cellAdd (cellAdd (addOnMap (Cell.str v.online_security)) (addOnMap (Cell.str v.online_backup))) (addOnMap (Cell.str v.device_protection))) (addOnMap (Cell.str v.tech_support))) (addOnMap (Cell.str v.streaming_tv))) (addOnMap (Cell.str v.streaming_movies)))] := by
    simp [dropCols, addOnCols]
  have h5 : mapCol "phone_service" ynMap
      [("contract_type_id", Cell.num v.contract_type_id),
       ("phone_service", Cell.str v.phone_service),
       ("internet_service_type_id", Cell.num v.internet_service_type_id),
       ("senior_citizen", Cell.num v.senior_citizen),
       ("partner", Cell.str v.partner),
       ("dependents", Cell.str v.dependents), ("tenure", Cell.num v.tenure),
       ("monthly_charges", Cell.num v.monthly_charges),
       ("total_charges", Cell.str v.total_charges),
       ("churn", Cell.str v.churn), ("gender", Cell.str v.gender),
       ("num_add_ons", cellAdd (cellAdd (cellAdd (cellAdd (cellAdd (addOnMap (Cell.str v.online_security)) (addOnMap (Cell.str v.online_backup))) (addOnMap (Cell.str v.device_protection))) (addOnMap (Cell.str v.tech_support))) (addOnMap (Cell.str v.streaming_tv))) (addOnMap (Cell.str v.streaming_movies)))] =
      [("contract_type_id", Cell.num v.contract_type_id),
       ("phone_service", ynMap (Cell.str v.phone_service)),
       ("internet_service_type_id", Cell.num v.internet_service_type_id),
       ("senior_citizen", Cell.num v.senior_citizen),
       ("partner", Cell.str v.partner),
       ("dependents", Cell.str v.dependents), ("tenure", Cell.num v.tenure),
       ("monthly_charges", Cell.num v.monthly_charges),
       ("total_charges", Cell.str v.total_charges),
       ("churn", Cell.str v.churn), ("gender", Cell.str v.gender),
       ("num_add_ons", cellAdd (cellAdd (cellAdd (cellAdd (cellAdd (addOnMap (Cell.str v.online_security)) (addOnMap (Cell.str v.online_backup))) (addOnMap (Cell.str v.device_protection))) (addOnMap (Cell.str v.tech_support))) (addOnMap (Cell.str v.streaming_tv))) (addOnMap (Cell.str v.streaming_movies)))] := by
    simp [mapCol]
  have h6 : lookupD "gender"
      [("contract_type_id", Cell.num v.contract_type_id),
       ("phone_service", ynMap (Cell.str v.phone_service)),
       ("internet_service_type_id", Cell.num v.internet_service_type_id),
       ("senior_citizen", Cell.num v.senior_citizen),
       ("partner", Cell.str v.partner),
       ("dependents", Cell.str v.dependents), ("tenure", Cell.num v.tenure),
       ("monthly_charges", Cell.num v.monthly_charges),
       ("total_charges", Cell.str v.total_charges),
       ("churn", Cell.str v.churn), ("gender", Cell.str v.gender),
       ("num_add_ons", cellAdd (cellAdd (cellAdd (cellAdd (cellAdd (addOnMap (Cell.str v.online_security)) (addOnMap (Cell.str v.online_backup))) (addOnMap (Cell.str v.device_protection))) (addOnMap (Cell.str v.tech_support))) (addOnMap (Cell.str v.streaming_tv))) (addOnMap (Cell.str v.streaming_movies)))] =
      Cell.str v.gender := by
    simp [lookupD, lookupCell]
  have h7 : setCol "is_male" (genderMap (Cell.str v.gender))
      [("contract_type_id", Cell.num v.contract_type_id),
       ("phone_service", ynMap (Cell.str v.phone_service)),
       ("internet_service_type_id", Cell.num v.internet_service_type_id),
       ("senior_citizen", Cell.num v.senior_citizen),
       ("partner", Cell.str v.partner),
       ("dependents", Cell.str v.dependents), ("tenure", Cell.num v.tenure),
       ("monthly_charges", Cell.num v.monthly_charges),
       ("total_charges", Cell.str v.total_charges),
       ("churn", Cell.str v.churn), ("gender", Cell.str v.gender),
       ("num_add_ons", cellAdd (cellAdd (cellAdd (cellAdd (cellAdd (addOnMap (Cell.str v.online_security)) (addOnMap (Cell.str v.online_backup))) (addOnMap (Cell.str v.device_protection))) (addOnMap (Cell.str v.tech_support))) (addOnMap (Cell.str v.streaming_tv))) (addOnMap (Cell.str v.streaming_movies)))] =
      [("contract_type_id", Cell.num v.contract_type_id),
       ("phone_service", ynMap (Cell.str v.phone_service)),
       ("internet_service_type_id", Cell.num v.internet_service_type_id),
       ("senior_citizen", Cell.num v.senior_citizen),
       ("partner", Cell.str v.partner),
       ("dependents", Cell.str v.dependents), ("tenure", Cell.num v.tenure),
       ("monthly_charges", Cell.num v.monthly_charges),
       ("total_charges", Cell.str v.total_charges),
       ("churn", Cell.str v.churn), ("gender", Cell.str v.gender),
       ("num_add_ons", cellAdd (cellAdd (cellAdd (cellAdd (cellAdd (addOnMap (Cell.str v.online_security)) (addOnMap (Cell.str v.online_backup))) (addOnMap (Cell.str v.device_protection))) (addOnMap (Cell.str v.tech_support))) (addOnMap (Cell.str v.streaming_tv))) (addOnMap (Cell.str v.streaming_movies))),
       ("is_male", genderMap (Cell.str v.gender))] := by
    simp [setCol, rowKeys, mapCol]
  have h8 : dropCols ["gender"]
      [("contract_type_id", Cell.num v.contract_type_id),
       ("phone_service", ynMap (Cell.str v.phone_service)),
       ("internet_service_type_id", Cell.num v.internet_service_type_id),
       ("senior_citizen", Cell.num v.senior_citizen),
       ("partner", Cell.str v.partner),
       ("dependents", Cell.str v.dependents), ("tenure", Cell.num v.tenure),
       ("monthly_charges", Cell.num v.monthly_charges),
       ("total_charges", Cell.str v.total_charges),
       ("churn", Cell.str v.churn), ("gender", Cell.str v.gender),
       ("num_add_ons", cellAdd (cellAdd (cellAdd (cellAdd (cellAdd (addOnMap (Cell.str v.online_security)) (addOnMap (Cell.str v.online_backup))) (addOnMap (Cell.str v.device_protection))) (addOnMap (Cell.str v.tech_support))) (addOnMap (Cell.str v.streaming_tv))) (addOnMap (Cell.str v.streaming_movies))),
       ("is_male", genderMap (Cell.str v.gender))] =
      [("contract_type_id", Cell.num v.contract_type_id),
       ("phone_service", ynMap (Cell.str v.phone_service)),
       ("internet_service_type_id", Cell.num v.internet_service_type_id),
       ("senior_citizen", Cell.num v.senior_citizen),
       ("partner", Cell.str v.partner),
       ("dependents", Cell.str v.dependents), ("tenure", Cell.num v.tenure),
       ("monthly_charges", Cell.num v.monthly_charges),
       ("total_charges", Cell.str v.total_charges),
       ("churn", Cell.str v.churn),
       ("num_add_ons", cellAdd (cellAdd (cellAdd (cellAdd (cellAdd (addOnMap (Cell.str v.online_security)) (addOnMap (Cell.str v.online_backup))) (addOnMap (Cell.str v.device_protection))) (addOnMap (Cell.str v.tech_support))) (addOnMap (Cell.str v.streaming_tv))) (addOnMap (Cell.str v.streaming_movies))),
       ("is_male", genderMap (Cell.str v.gender))] := by
    simp [dropCols]
  have h9 : mapCol "partner" ynMap
      [("contract_type_id", Cell.num v.contract_type_id),
       ("phone_service", ynMap (Cell.str v.phone_service)),
       ("internet_service_type_id", Cell.num v.internet_service_type_id),
       ("senior_citizen", Cell.num v.senior_citizen),
       ("partner", Cell.str v.partner),
       ("dependents", Cell.str v.dependents), ("tenure", Cell.num v.tenure),
       ("monthly_charges", Cell.num v.monthly_charges),
       ("total_charges", Cell.str v.total_charges),
       ("churn", Cell.str v.churn),
       ("num_add_ons", cellAdd (cellAdd (cellAdd (cellAdd (cellAdd (addOnMap (Cell.str v.online_security)) (addOnMap (Cell.str v.online_backup))) (addOnMap (Cell.str v.device_protection))) (addOnMap (Cell.str v.tech_support))) (addOnMap (Cell.str v.streaming_tv))) (addOnMap (Cell.str v.streaming_movies))),
       ("is_male", genderMap (Cell.str v.gender))] =
      [("contract_type_id", Cell.num v.contract_type_id),
       ("phone_service", ynMap (Cell.str v.phone_service)),
       ("internet_service_type_id", Cell.num v.internet_service_type_id),
       ("senior_citizen", Cell.num v.senior_citizen),
       ("partner", ynMap (Cell.str v.partner)),
       ("dependents", Cell.str v.dependents), ("tenure", Cell.num v.tenure),
       ("monthly_charges", Cell.num v.monthly_charges),
       ("total_charges", Cell.str v.total_charges),
       ("churn", Cell.str v.churn),
       ("num_add_ons", cellAdd (cellAdd (cellAdd (cellAdd (cellAdd (addOnMap (Cell.str v.online_security)) (addOnMap (Cell.str v.online_backup))) (addOnMap (Cell.str v.device_protection))) (addOnMap (Cell.str v.tech_support))) (addOnMap (Cell.str v.streaming_tv))) (addOnMap (Cell.str v.streaming_movies))),
       ("is_male", genderMap (Cell.str v.gender))] := by
    simp [mapCol]
  have h10 : mapCol "dependents" ynMap
      [("contract_type_id", Cell.num v.contract_type_id),
       ("phone_service", ynMap (Cell.str v.phone_service)),
       ("internet_service_type_id", Cell.num v.internet_service_type_id),
       ("senior_citizen", Cell.num v.senior_citizen),
       ("partner", ynMap (Cell.str v.partner)),
       ("dependents", Cell.str v.dependents), ("tenure", Cell.num v.tenure),
       ("monthly_charges", Cell.num v.monthly_charges),
       ("total_charges", Cell.str v.total_charges),
       ("churn", Cell.str v.churn),
       ("num_add_ons", cellAdd (cellAdd (cellAdd (cellAdd (cellAdd (addOnMap (Cell.str v.online_security)) (addOnMap (Cell.str v.online_backup))) (addOnMap (Cell.str v.device_protection))) (addOnMap (Cell.str v.tech_support))) (addOnMap (Cell.str v.streaming_tv))) (addOnMap (Cell.str v.streaming_movies))),
       ("is_male", genderMap (Cell.str v.gender))] =
      [("contract_type_id", Cell.num v.contract_type_id),
       ("phone_service", ynMap (Cell.str v.phone_service)),
       ("internet_service_type_id", Cell.num v.internet_service_type_id),
       ("senior_citizen", Cell.num v.senior_citizen),
       ("partner", ynMap (Cell.str v.partner)),
       ("dependents", ynMap (Cell.str v.dependents)),
       ("tenure", Cell.num v.tenure),
       ("monthly_charges", Cell.num v.monthly_charges),
       ("total_charges", Cell.str v.total_charges),
       ("churn", Cell.str v.churn),
       ("num_add_ons", cellAdd (cellAdd (cellAdd (cellAdd (cellAdd (addOnMap (Cell.str v.online_security)) (addOnMap (Cell.str v.online_backup))) (addOnMap (Cell.str v.device_protection))) (addOnMap (Cell.str v.tech_support))) (addOnMap (Cell.str v.streaming_tv))) (addOnMap (Cell.str v.streaming_movies))),
       ("is_male", genderMap (Cell.str v.gender))] := by
    simp [mapCol]
  have h11 : mapCol "churn" ynMap
      [("contract_type_id", Cell.num v.contract_type_id),
       ("phone_service", ynMap (Cell.str v.phone_service)),
       ("internet_service_type_id", Cell.num v.internet_service_type_id),
       ("senior_citizen", Cell.num v.senior_citizen),
       ("partner", ynMap (Cell.str v.partner)),
       ("dependents", ynMap (Cell.str v.dependents)),
       ("tenure", Cell.num v.tenure),
       ("monthly_charges", Cell.num v.monthly_charges),
       ("total_charges", Cell.str v.total_charges),
       ("churn", Cell.str v.churn),
       ("num_add_ons", cellAdd (cellAdd (cellAdd (cellAdd (cellAdd (addOnMap (Cell.str v.online_security)) (addOnMap (Cell.str v.online_backup))) (addOnMap (Cell.str v.device_protection))) (addOnMap (Cell.str v.tech_support))) (addOnMap (Cell.str v.streaming_tv))) (addOnMap (Cell.str v.streaming_movies))),
       ("is_male", genderMap (Cell.str v.gender))] =
      [("contract_type_id", Cell.num v.contract_type_id),
       ("phone_service", ynMap (Cell.str v.phone_service)),
       ("internet_service_type_id", Cell.num v.internet_service_type_id),
       ("senior_citizen", Cell.num v.senior_citizen),
       ("partner", ynMap (Cell.str v.partner)),
       ("dependents", ynMap (Cell.str v.dependents)),
       ("tenure", Cell.num v.tenure),
       ("monthly_charges", Cell.num v.monthly_charges),
       ("total_charges", Cell.str v.total_charges),
       ("churn", ynMap (Cell.str v.churn)),
       ("num_add_ons", cellAdd (cellAdd (cellAdd (cellAdd (cellAdd (addOnMap (Cell.str v.online_security)) (addOnMap (Cell.str v.online_backup))) (addOnMap (Cell.str v.device_protection))) (addOnMap (Cell.str v.tech_support))) (addOnMap (Cell.str v.streaming_tv))) (addOnMap (Cell.str v.streaming_movies))),
       ("is_male", genderMap (Cell.str v.gender))] := by
    simp [mapCol]
  have h12 : mapCol "contract_type_id" contractMap
      [("contract_type_id", Cell.num v.contract_type_id),
       ("phone_service", ynMap (Cell.str v.phone_service)),
       ("internet_service_type_id", Cell.num v.internet_service_type_id),
       ("senior_citizen", Cell.num v.senior_citizen),
       ("partner", ynMap (Cell.str v.partner)),
       ("dependents", ynMap (Cell.str v.dependents)),
       ("tenure", Cell.num v.tenure),
       ("monthly_charges", Cell.num v.monthly_charges),
       ("total_charges", Cell.str v.total_charges),
       ("churn", ynMap (Cell.str v.churn)),
       ("num_add_ons", cellAdd (cellAdd (cellAdd (cellAdd (cellAdd (addOnMap (Cell.str v.online_security)) (addOnMap (Cell.str v.online_backup))) (addOnMap (Cell.str v.device_protection))) (addOnMap (Cell.str v.tech_support))) (addOnMap (Cell.str v.streaming_tv))) (addOnMap (Cell.str v.streaming_movies))),
       ("is_male", genderMap (Cell.str v.gender))] =
      [("contract_type_id", contractMap (Cell.num v.contract_type_id)),
       ("phone_service", ynMap (Cell.str v.phone_service)),
       ("internet_service_type_id", Cell.num v.internet_service_type_id),
       ("senior_citizen", Cell.num v.senior_citizen),
       ("partner", ynMap (Cell.str v.partner)),
       ("dependents", ynMap (Cell.str v.dependents)),
       ("tenure", Cell.num v.tenure),
       ("monthly_charges", Cell.num v.monthly_charges),
       ("total_charges", Cell.str v.total_charges),
       ("churn", ynMap (Cell.str v.churn)),
       ("num_add_ons", cellAdd (cellAdd (cellAdd (cellAdd (cellAdd (addOnMap (Cell.str v.online_security)) (addOnMap (Cell.str v.online_backup))) (addOnMap (Cell.str v.device_protection))) (addOnMap (Cell.str v.tech_support))) (addOnMap (Cell.str v.streaming_tv))) (addOnMap (Cell.str v.streaming_movies))),
       ("is_male", genderMap (Cell.str v.gender))] := by
    simp [mapCol]
  have h13 : mapCol "internet_service_type_id" internetMap
      [("contract_type_id", contractMap (Cell.num v.contract_type_id)),
       ("phone_service", ynMap (Cell.str v.phone_service)),
       ("internet_service_type_id", Cell.num v.internet_service_type_id),
       ("senior_citizen", Cell.num v.senior_citizen),
       ("partner", ynMap (Cell.str v.partner)),
       ("dependents", ynMap (Cell.str v.dependents)),
       ("tenure", Cell.num v.tenure),
       ("monthly_charges", Cell.num v.monthly_charges),
       ("total_charges", Cell.str v.total_charges),
       ("churn", ynMap (Cell.str v.churn)),
       ("num_add_ons", cellAdd (cellAdd (cellAdd (cellAdd (cellAdd (addOnMap (Cell.str v.online_security)) (addOnMap (Cell.str v.online_backup))) (addOnMap (Cell.str v.device_protection))) (addOnMap (Cell.str v.tech_support))) (addOnMap (Cell.str v.streaming_tv))) (addOnMap (Cell.str v.streaming_movies))),
       ("is_male", genderMap (Cell.str v.gender))] =
      [("contract_type_id", contractMap (Cell.num v.contract_type_id)),
       ("phone_service", ynMap (Cell.str v.phone_service)),
       ("internet_service_type_id", internetMap (Cell.num v.internet_service_type_id)),
       ("senior_citizen", Cell.num v.senior_citizen),
       ("partner", ynMap (Cell.str v.partner)),
       ("dependents", ynMap (Cell.str v.dependents)),
       ("tenure", Cell.num v.tenure),
       ("monthly_charges", Cell.num v.monthly_charges),
       ("total_charges", Cell.str v.total_charges),
       ("churn", ynMap (Cell.str v.churn)),
       ("num_add_ons", cellAdd (cellAdd (cellAdd (cellAdd (cellAdd (addOnMap (Cell.str v.online_security)) (addOnMap (Cell.str v.online_backup))) (addOnMap (Cell.str v.device_protection))) (addOnMap (Cell.str v.tech_support))) (addOnMap (Cell.str v.streaming_tv))) (addOnMap (Cell.str v.streaming_movies))),
       ("is_male", genderMap (Cell.str v.gender))] := by
    simp [mapCol]
  have h14 : lookupD "tenure"
      [("contract_type_id", contractMap (Cell.num v.contract_type_id)),
       ("phone_service", ynMap (Cell.str v.phone_service)),
       ("internet_service_type_id", internetMap (Cell.num v.internet_service_type_id)),
       ("senior_citizen", Cell.num v.senior_citizen),
       ("partner", ynMap (Cell.str v.partner)),
       ("dependents", ynMap (Cell.str v.dependents)),
       ("tenure", Cell.num v.tenure),
       ("monthly_charges", Cell.num v.monthly_charges),
       ("total_charges", Cell.str v.total_charges),
       ("churn", ynMap (Cell.str v.churn)),
       ("num_add_ons", cellAdd (cellAdd (cellAdd (cellAdd (cellAdd (addOnMap (Cell.str v.online_security)) (addOnMap (Cell.str v.online_backup))) (addOnMap (Cell.str v.device_protection))) (addOnMap (Cell.str v.tech_support))) (addOnMap (Cell.str v.streaming_tv))) (addOnMap (Cell.str v.streaming_movies))),
       ("is_male", genderMap (Cell.str v.gender))] =
      Cell.num v.tenure := by
    simp [lookupD, lookupCell]
  have h15 : setCol "tenure_yrs" (tenureYrsCell (Cell.num v.tenure))
      [("contract_type_id", contractMap (Cell.num v.contract_type_id)),
       ("phone_service", ynMap (Cell.str v.phone_service)),
       ("internet_service_type_id", internetMap (Cell.num v.internet_service_type_id)),
       ("senior_citizen", Cell.num v.senior_citizen),
       ("partner", ynMap (Cell.str v.partner)),
       ("dependents", ynMap (Cell.str v.dependents)),
       ("tenure", Cell.num v.tenure),
       ("monthly_charges", Cell.num v.monthly_charges),
       ("total_charges", Cell.str v.total_charges),
       ("churn", ynMap (Cell.str v.churn)),
       ("num_add_ons", cellAdd (cellAdd (cellAdd (cellAdd (cellAdd (addOnMap (Cell.str v.online_security)) (addOnMap (Cell.str v.online_backup))) (addOnMap (Cell.str v.device_protection))) (addOnMap (Cell.str v.tech_support))) (addOnMap (Cell.str v.streaming_tv))) (addOnMap (Cell.str v.streaming_movies))),
       ("is_male", genderMap (Cell.str v.gender))] =
      [("contract_type_id", contractMap (Cell.num v.contract_type_id)),
       ("phone_service", ynMap (Cell.str v.phone_service)),
       ("internet_service_type_id", internetMap (Cell.num v.internet_service_type_id)),
       ("senior_citizen", Cell.num v.senior_citizen),
       ("partner", ynMap (Cell.str v.partner)),
       ("dependents", ynMap (Cell.str v.dependents)),
       ("tenure", Cell.num v.tenure),
       ("monthly_charges", Cell.num v.monthly_charges),
       ("total_charges", Cell.str v.total_charges),
       ("churn", ynMap (Cell.str v.churn)),
       ("num_add_ons", cellAdd (cellAdd (cellAdd (cellAdd (cellAdd (addOnMap (Cell.str v.online_security)) (addOnMap (Cell.str v.online_backup))) (addOnMap (Cell.str v.device_protection))) (addOnMap (Cell.str v.tech_support))) (addOnMap (Cell.str v.streaming_tv))) (addOnMap (Cell.str v.streaming_movies))),
       ("is_male", genderMap (Cell.str v.gender)),
       ("tenure_yrs", tenureYrsCell (Cell.num v.tenure))] := by
    simp [setCol, rowKeys, mapCol]
  have h16 : renameCols renameTbl
      [("contract_type_id", contractMap (Cell.num v.contract_type_id)),
       ("phone_service", ynMap (Cell.str v.phone_service)),
       ("internet_service_type_id", internetMap (Cell.num v.internet_service_type_id)),
       ("senior_citizen", Cell.num v.senior_citizen),
       ("partner", ynMap (Cell.str v.partner)),
       ("dependents", ynMap (Cell.str v.dependents)),
       ("tenure", Cell.num v.tenure),
       ("monthly_charges", Cell.num v.monthly_charges),
       ("total_charges", Cell.str v.total_charges),
       ("churn", ynMap (Cell.str v.churn)),
       ("num_add_ons", cellAdd (cellAdd (cellAdd (cellAdd (cellAdd (addOnMap (Cell.str v.online_security)) (addOnMap (Cell.str v.online_backup))) (addOnMap (Cell.str v.device_protection))) (addOnMap (Cell.str v.tech_support))) (addOnMap (Cell.str v.streaming_tv))) (addOnMap (Cell.str v.streaming_movies))),
       ("is_male", genderMap (Cell.str v.gender)),
       ("tenure_yrs", tenureYrsCell (Cell.num v.tenure))] =
      [("contract_type", contractMap (Cell.num v.contract_type_id)),
       ("phone", ynMap (Cell.str v.phone_service)),
       ("internet_type", internetMap (Cell.num v.internet_service_type_id)),
       ("senior", Cell.num v.senior_citizen),
       ("partner", ynMap (Cell.str v.partner)),
       ("depend", ynMap (Cell.str v.dependents)),
       ("tenure", Cell.num v.tenure),
       ("monthly_charges", Cell.num v.monthly_charges),
       ("total_charges", Cell.str v.total_charges),
       ("churn", ynMap (Cell.str v.churn)),
       ("num_add_ons", cellAdd (cellAdd (cellAdd (cellAdd (cellAdd (addOnMap (Cell.str v.online_security)) (addOnMap (Cell.str v.online_backup))) (addOnMap (Cell.str v.device_protection))) (addOnMap (Cell.str v.tech_support))) (addOnMap (Cell.str v.streaming_tv))) (addOnMap (Cell.str v.streaming_movies))),
       ("is_male", genderMap (Cell.str v.gender)),
       ("tenure_yrs", tenureYrsCell (Cell.num v.tenure))] := by
    simp [renameCols, renameTbl, List.lookup]
  have h17 : lookupD "total_charges"
      [("contract_type", contractMap (Cell.num v.contract_type_id)),
       ("phone", ynMap (Cell.str v.phone_service)),
       ("internet_type", internetMap (Cell.num v.internet_service_type_id)),
       ("senior", Cell.num v.senior_citizen),
       ("partner", ynMap (Cell.str v.partner)),
       ("depend", ynMap (Cell.str v.dependents)),
       ("tenure", Cell.num v.tenure),
       ("monthly_charges", Cell.num v.monthly_charges),
       ("total_charges", Cell.str v.total_charges),
       ("churn", ynMap (Cell.str v.churn)),
       ("num_add_ons", cellAdd (cellAdd (cellAdd (cellAdd (cellAdd (addOnMap (Cell.str v.online_security)) (addOnMap (Cell.str v.online_backup))) (addOnMap (Cell.str v.device_protection))) (addOnMap (Cell.str v.tech_support))) (addOnMap (Cell.str v.streaming_tv))) (addOnMap (Cell.str v.streaming_movies))),
       ("is_male", genderMap (Cell.str v.gender)),
       ("tenure_yrs", tenureYrsCell (Cell.num v.tenure))] =
      Cell.str v.total_charges := by
    simp [lookupD, lookupCell]
  have h18 : setCol "total_charges" (toNumericCell (Cell.str v.total_charges))
      [("contract_type", contractMap (Cell.num v.contract_type_id)),
       ("phone", ynMap (Cell.str v.phone_service)),
       ("internet_type", internetMap (Cell.num v.internet_service_type_id)),
       ("senior", Cell.num v.senior_citizen),
       ("partner", ynMap (Cell.str v.partner)),
       ("depend", ynMap (Cell.str v.dependents)),
       ("tenure", Cell.num v.tenure),
       ("monthly_charges", Cell.num v.monthly_charges),
       ("total_charges", Cell.str v.total_charges),
       ("churn", ynMap (Cell.str v.churn)),
       ("num_add_ons", cellAdd (cellAdd (cellAdd (cellAdd (cellAdd (addOnMap (Cell.str v.online_security)) (addOnMap (Cell.str v.online_backup))) (addOnMap (Cell.str v.device_protection))) (addOnMap (Cell.str v.tech_support))) (addOnMap (Cell.str v.streaming_tv))) (addOnMap (Cell.str v.streaming_movies))),
       ("is_male", genderMap (Cell.str v.gender)),
       ("tenure_yrs", tenureYrsCell (Cell.num v.tenure))] =
      prepVals v := by
    simp [setCol, rowKeys, mapCol, prepVals]
  simp only [prepRow]
  rw [h1, h2, h3, h4, h5, h6, h7, h8, h9, h10, h11, h12, h13, h14, h15, h16, h17, h18]

set_option maxHeartbeats 1000000 in
/-- Evaluation of the per-row pipeline on the concrete example row
of the specification, stage by stage. -/
theorem prepRow_c8row :
    prepRow c8row =
      [("contract_type", Cell.num 0), ("internet_type", Cell.num 0),
       ("phone", Cell.num 1), ("partner", Cell.num 0),
       ("depend", Cell.num 0), ("churn", Cell.num 0),
       ("tenure", Cell.num 5), ("total_charges", Cell.num (201 / 2)),
       ("num_add_ons", Cell.num 1), ("is_male", Cell.num 1),
       ("tenure_yrs", Cell.num (round2 (5 / 12)))] := by
  have g1 : mapCol "streaming_movies" addOnMap
      (mapCol "streaming_tv" addOnMap
      (mapCol "tech_support" addOnMap
      (mapCol "device_protection" addOnMap
      (mapCol "online_backup" addOnMap
      (mapCol "online_security" addOnMap
      (c8row)))))) =
      [("contract_type_id", Cell.num 1),
       ("internet_service_type_id", Cell.num 3),
       ("phone_service", Cell.str "Yes"), ("gender", Cell.str "Male"),
       ("partner", Cell.str "No"), ("dependents", Cell.str "No"),
       ("churn", Cell.str "No"), ("tenure", Cell.num 5),
       ("online_security", Cell.num 1), ("online_backup", Cell.num 0),
       ("device_protection", Cell.num 0), ("tech_support", Cell.num 0),
       ("streaming_tv", Cell.num 0), ("streaming_movies", Cell.num 0),
       ("total_charges", Cell.str "100.5")] := by
    simp [mapCol, c8row, addOnMap]
  have g2 : addOnSum
      [("contract_type_id", Cell.num 1),
       ("internet_service_type_id", Cell.num 3),
       ("phone_service", Cell.str "Yes"), ("gender", Cell.str "Male"),
       ("partner", Cell.str "No"), ("dependents", Cell.str "No"),
       ("churn", Cell.str "No"), ("tenure", Cell.num 5),
       ("online_security", Cell.num 1), ("online_backup", Cell.num 0),
       ("device_protection", Cell.num 0), ("tech_support", Cell.num 0),
       ("streaming_tv", Cell.num 0), ("streaming_movies", Cell.num 0),
       ("total_charges", Cell.str "100.5")] =
      Cell.num 1 := by
    simp [addOnSum, lookupD, lookupCell, cellAdd]
  have g3 : setCol "num_add_ons" (Cell.num 1)
      [("contract_type_id", Cell.num 1),
       ("internet_service_type_id", Cell.num 3),
       ("phone_service", Cell.str "Yes"), ("gender", Cell.str "Male"),
       ("partner", Cell.str "No"), ("dependents", Cell.str "No"),
       ("churn", Cell.str "No"), ("tenure", Cell.num 5),
       ("online_security", Cell.num 1), ("online_backup", Cell.num 0),
       ("device_protection", Cell.num 0), ("tech_support", Cell.num 0),
       ("streaming_tv", Cell.num 0), ("streaming_movies", Cell.num 0),
       ("total_charges", Cell.str "100.5")] =
      [("contract_type_id", Cell.num 1),
       ("internet_service_type_id", Cell.num 3),
       ("phone_service", Cell.str "Yes"), ("gender", Cell.str "Male"),
       ("partner", Cell.str "No"), ("dependents", Cell.str "No"),
       ("churn", Cell.str "No"), ("tenure", Cell.num 5),
       ("online_security", Cell.num 1), ("online_backup", Cell.num 0),
       ("device_protection", Cell.num 0), ("tech_support", Cell.num 0),
       ("streaming_tv", Cell.num 0), ("streaming_movies", Cell.num 0),
       ("total_charges", Cell.str "100.5"), ("num_add_ons", Cell.num 1)] := by
    simp [setCol, rowKeys, mapCol]
  have g4 : dropCols addOnCols
      [("contract_type_id", Cell.num 1),
       ("internet_service_type_id", Cell.num 3),
       ("phone_service", Cell.str "Yes"), ("gender", Cell.str "Male"),
       ("partner", Cell.str "No"), ("dependents", Cell.str "No"),
       ("churn", Cell.str "No"), ("tenure", Cell.num 5),
       ("online_security", Cell.num 1), ("online_backup", Cell.num 0),
       ("device_protection", Cell.num 0), ("tech_support", Cell.num 0),
       ("streaming_tv", Cell.num 0), ("streaming_movies", Cell.num 0),
       ("total_charges", Cell.str "100.5"), ("num_add_ons", Cell.num 1)] =
      [("contract_type_id", Cell.num 1),
       ("internet_service_type_id", Cell.num 3),
       ("phone_service", Cell.str "Yes"), ("gender", Cell.str "Male"),
       ("partner", Cell.str "No"), ("dependents", Cell.str "No"),
       ("churn", Cell.str "No"), ("tenure", Cell.num 5),
       ("total_charges", Cell.str "100.5"), ("num_add_ons", Cell.num 1)] := by
    simp [dropCols, addOnCols]
  have g5 : mapCol "phone_service" ynMap
      [("contract_type_id", Cell.num 1),
       ("internet_service_type_id", Cell.num 3),
       ("phone_service", Cell.str "Yes"), ("gender", Cell.str "Male"),
       ("partner", Cell.str "No"), ("dependents", Cell.str "No"),
       ("churn", Cell.str "No"), ("tenure", Cell.num 5),
       ("total_charges", Cell.str "100.5"), ("num_add_ons", Cell.num 1)] =
      [("contract_type_id", Cell.num 1),
       ("internet_service_type_id", Cell.num 3),
       ("phone_service", Cell.num 1), ("gender", Cell.str "Male"),
       ("partner", Cell.str "No"), ("dependents", Cell.str "No"),
       ("churn", Cell.str "No"), ("tenure", Cell.num 5),
       ("total_charges", Cell.str "100.5"), ("num_add_ons", Cell.num 1)] := by
    simp [mapCol, ynMap]
  have g6 : setCol "is_male" (genderMap (lookupD "gender"
      [("contract_type_id", Cell.num 1),
       ("internet_service_type_id", Cell.num 3),
       ("phone_service", Cell.num 1), ("gender", Cell.str "Male"),
       ("partner", Cell.str "No"), ("dependents", Cell.str "No"),
       ("churn", Cell.str "No"), ("tenure", Cell.num 5),
       ("total_charges", Cell.str "100.5"), ("num_add_ons", Cell.num 1)]))
      [("contract_type_id", Cell.num 1),
       ("internet_service_type_id", Cell.num 3),
       ("phone_service", Cell.num 1), ("gender", Cell.str "Male"),
       ("partner", Cell.str "No"), ("dependents", Cell.str "No"),
       ("churn", Cell.str "No"), ("tenure", Cell.num 5),
       ("total_charges", Cell.str "100.5"), ("num_add_ons", Cell.num 1)] =
      [("contract_type_id", Cell.num 1),
       ("internet_service_type_id", Cell.num 3),
       ("phone_service", Cell.num 1), ("gender", Cell.str "Male"),
       ("partner", Cell.str "No"), ("dependents", Cell.str "No"),
       ("churn", Cell.str "No"), ("tenure", Cell.num 5),
       ("total_charges", Cell.str "100.5"), ("num_add_ons", Cell.num 1),
       ("is_male", Cell.num 1)] := by
    simp [setCol, rowKeys, mapCol, lookupD, lookupCell, genderMap]
  have g7 : dropCols ["gender"]
      [("contract_type_id", Cell.num 1),
       ("internet_service_type_id", Cell.num 3),
       ("phone_service", Cell.num 1), ("gender", Cell.str "Male"),
       ("partner", Cell.str "No"), ("dependents", Cell.str "No"),
       ("churn", Cell.str "No"), ("tenure", Cell.num 5),
       ("total_charges", Cell.str "100.5"), ("num_add_ons", Cell.num 1),
       ("is_male", Cell.num 1)] =
      [("contract_type_id", Cell.num 1),
       ("internet_service_type_id", Cell.num 3),
       ("phone_service", Cell.num 1), ("partner", Cell.str "No"),
       ("dependents", Cell.str "No"), ("churn", Cell.str "No"),
       ("tenure", Cell.num 5), ("total_charges", Cell.str "100.5"),
       ("num_add_ons", Cell.num 1), ("is_male", Cell.num 1)] := by
    simp [dropCols]
  have g8 : mapCol "partner" ynMap
      [("contract_type_id", Cell.num 1),
       ("internet_service_type_id", Cell.num 3),
       ("phone_service", Cell.num 1), ("partner", Cell.str "No"),
       ("dependents", Cell.str "No"), ("churn", Cell.str "No"),
       ("tenure", Cell.num 5), ("total_charges", Cell.str "100.5"),
       ("num_add_ons", Cell.num 1), ("is_male", Cell.num 1)] =
      [("contract_type_id", Cell.num 1),
       ("internet_service_type_id", Cell.num 3),
       ("phone_service", Cell.num 1), ("partner", Cell.num 0),
       ("dependents", Cell.str "No"), ("churn", Cell.str "No"),
       ("tenure", Cell.num 5), ("total_charges", Cell.str "100.5"),
       ("num_add_ons", Cell.num 1), ("is_male", Cell.num 1)] := by
    simp [mapCol, ynMap]
  have g9 : mapCol "dependents" ynMap
      [("contract_type_id", Cell.num 1),
       ("internet_service_type_id", Cell.num 3),
       ("phone_service", Cell.num 1), ("partner", Cell.num 0),
       ("dependents", Cell.str "No"), ("churn", Cell.str "No"),
       ("tenure", Cell.num 5), ("total_charges", Cell.str "100.5"),
       ("num_add_ons", Cell.num 1), ("is_male", Cell.num 1)] =
      [("contract_type_id", Cell.num 1),
       ("internet_service_type_id", Cell.num 3),
       ("phone_service", Cell.num 1), ("partner", Cell.num 0),
       ("dependents", Cell.num 0), ("churn", Cell.str "No"),
       ("tenure", Cell.num 5), ("total_charges", Cell.str "100.5"),
       ("num_add_ons", Cell.num 1), ("is_male", Cell.num 1)] := by
    simp [mapCol, ynMap]
  have g10 : mapCol "churn" ynMap
      [("contract_type_id", Cell.num 1),
       ("internet_service_type_id", Cell.num 3),
       ("phone_service", Cell.num 1), ("partner", Cell.num 0),
       ("dependents", Cell.num 0), ("churn", Cell.str "No"),
       ("tenure", Cell.num 5), ("total_charges", Cell.str "100.5"),
       ("num_add_ons", Cell.num 1), ("is_male", Cell.num 1)] =
      [("contract_type_id", Cell.num 1),
       ("internet_service_type_id", Cell.num 3),
       ("phone_service", Cell.num 1), ("partner", Cell.num 0),
       ("dependents", Cell.num 0), ("churn", Cell.num 0),
       ("tenure", Cell.num 5), ("total_charges", Cell.str "100.5"),
       ("num_add_ons", Cell.num 1), ("is_male", Cell.num 1)] := by
    simp [mapCol, ynMap]
  have g11 : mapCol "contract_type_id" contractMap
      [("contract_type_id", Cell.num 1),
       ("internet_service_type_id", Cell.num 3),
       ("phone_service", Cell.num 1), ("partner", Cell.num 0),
       ("dependents", Cell.num 0), ("churn", Cell.num 0),
       ("tenure", Cell.num 5), ("total_charges", Cell.str "100.5"),
       ("num_add_ons", Cell.num 1), ("is_male", Cell.num 1)] =
      [("contract_type_id", Cell.num 0),
       ("internet_service_type_id", Cell.num 3),
       ("phone_service", Cell.num 1), ("partner", Cell.num 0),
       ("dependents", Cell.num 0), ("churn", Cell.num 0),
       ("tenure", Cell.num 5), ("total_charges", Cell.str "100.5"),
       ("num_add_ons", Cell.num 1), ("is_male", Cell.num 1)] := by
    simp [mapCol, contractMap]
  have g12 : mapCol "internet_service_type_id" internetMap
      [("contract_type_id", Cell.num 0),
       ("internet_service_type_id", Cell.num 3),
       ("phone_service", Cell.num 1), ("partner", Cell.num 0),
       ("dependents", Cell.num 0), ("churn", Cell.num 0),
       ("tenure", Cell.num 5), ("total_charges", Cell.str "100.5"),
       ("num_add_ons", Cell.num 1), ("is_male", Cell.num 1)] =
      [("contract_type_id", Cell.num 0),
       ("internet_service_type_id", Cell.num 0),
       ("phone_service", Cell.num 1), ("partner", Cell.num 0),
       ("dependents", Cell.num 0), ("churn", Cell.num 0),
       ("tenure", Cell.num 5), ("total_charges", Cell.str "100.5"),
       ("num_add_ons", Cell.num 1), ("is_male", Cell.num 1)] := by
    simp [mapCol, internetMap]
  have g13 : setCol "tenure_yrs" (tenureYrsCell (lookupD "tenure"
      [("contract_type_id", Cell.num 0),
       ("internet_service_type_id", Cell.num 0),
       ("phone_service", Cell.num 1), ("partner", Cell.num 0),
       ("dependents", Cell.num 0), ("churn", Cell.num 0),
       ("tenure", Cell.num 5), ("total_charges", Cell.str "100.5"),
       ("num_add_ons", Cell.num 1), ("is_male", Cell.num 1)]))
      [("contract_type_id", Cell.num 0),
       ("internet_service_type_id", Cell.num 0),
       ("phone_service", Cell.num 1), ("partner", Cell.num 0),
       ("dependents", Cell.num 0), ("churn", Cell.num 0),
       ("tenure", Cell.num 5), ("total_charges", Cell.str "100.5"),
       ("num_add_ons", Cell.num 1), ("is_male", Cell.num 1)] =
      [("contract_type_id", Cell.num 0),
       ("internet_service_type_id", Cell.num 0),
       ("phone_service", Cell.num 1), ("partner", Cell.num 0),
       ("dependents", Cell.num 0), ("churn", Cell.num 0),
       ("tenure", Cell.num 5), ("total_charges", Cell.str "100.5"),
       ("num_add_ons", Cell.num 1), ("is_male", Cell.num 1),
       ("tenure_yrs", Cell.num (round2 (5 / 12)))] := by
    simp [setCol, rowKeys, mapCol, lookupD, lookupCell, tenureYrsCell]
  have g14 : renameCols renameTbl
      [("contract_type_id", Cell.num 0),
       ("internet_service_type_id", Cell.num 0),
       ("phone_service", Cell.num 1), ("partner", Cell.num 0),
       ("dependents", Cell.num 0), ("churn", Cell.num 0),
       ("tenure", Cell.num 5), ("total_charges", Cell.str "100.5"),
       ("num_add_ons", Cell.num 1), ("is_male", Cell.num 1),
       ("tenure_yrs", Cell.num (round2 (5 / 12)))] =
      [("contract_type", Cell.num 0), ("internet_type", Cell.num 0),
       ("phone", Cell.num 1), ("partner", Cell.num 0),
       ("depend", Cell.num 0), ("churn", Cell.num 0),
       ("tenure", Cell.num 5), ("total_charges", Cell.str "100.5"),
       ("num_add_ons", Cell.num 1), ("is_male", Cell.num 1),
       ("tenure_yrs", Cell.num (round2 (5 / 12)))] := by
    simp [renameCols, renameTbl, List.lookup]
  have g15 : lookupD "total_charges"
      [("contract_type", Cell.num 0), ("internet_type", Cell.num 0),
       ("phone", Cell.num 1), ("partner", Cell.num 0),
       ("depend", Cell.num 0), ("churn", Cell.num 0),
       ("tenure", Cell.num 5), ("total_charges", Cell.str "100.5"),
       ("num_add_ons", Cell.num 1), ("is_male", Cell.num 1),
       ("tenure_yrs", Cell.num (round2 (5 / 12)))] =
      Cell.str "100.5" := by
    simp [lookupD, lookupCell]
  have g16 : toNumericCell (Cell.str "100.5") =
      Cell.num (201 / 2) := by
    simp only [toNumericCell,
      show parseDec "100.5" = some ((100 : ℚ) + 5 / 10 ^ 1) from by
        simp [parseDec, show parseParts "100.5" = some (false, 100, 5, 1)
          from by decide, partsVal], Option.elim]
    norm_num
  have g17 : setCol "total_charges" (Cell.num (201 / 2))
      [("contract_type", Cell.num 0), ("internet_type", Cell.num 0),
       ("phone", Cell.num 1), ("partner", Cell.num 0),
       ("depend", Cell.num 0), ("churn", Cell.num 0),
       ("tenure", Cell.num 5), ("total_charges", Cell.str "100.5"),
       ("num_add_ons", Cell.num 1), ("is_male", Cell.num 1),
       ("tenure_yrs", Cell.num (round2 (5 / 12)))] =
      [("contract_type", Cell.num 0), ("internet_type", Cell.num 0),
       ("phone", Cell.num 1), ("partner", Cell.num 0),
       ("depend", Cell.num 0), ("churn", Cell.num 0),
       ("tenure", Cell.num 5), ("total_charges", Cell.num (201 / 2)),
       ("num_add_ons", Cell.num 1), ("is_male", Cell.num 1),
       ("tenure_yrs", Cell.num (round2 (5 / 12)))] := by
    simp [setCol, rowKeys, mapCol]
  simp only [prepRow]
  rw [g1, g2, g3, g4, g5, g6, g7, g8, g9, g10, g11, g12, g13, g14, g15, g16, g17]

/-- C8: on the specification's example raw row, the feature encoder
produces exactly the expected prepared row — contract re-based to 0,
internet "none" re-based to 0, the binary encodings, one add-on,
`total_charges` parsed to `100.5`, and
`tenure_yrs = round(5 / 12, 2) = 0.42`. -/
theorem prep_telco_example :
    prep_telco [c8row] = [("", c8out)] ∧ round2 (5 / 12) = 21 / 50 := by
  have hr : round2 ((5 : ℚ) / 12) = 21 / 50 := by
    rw [round2_eq (5 / 12) 42 (by norm_num)]; norm_num
  constructor
  · have hidx : setIndex c8row = ("", c8row) := by
      simp [setIndex, c8row, lookupCell, dropCols]
    simp [prep_telco, hidx, prepRow_c8row, lookupD, lookupCell,
      Cell.isNull, c8out, hr]
  · exact hr

/-- An add-on cell in the expected enumeration maps to its Yes
indicator. -/
theorem addOnMap_val (s : String)
    (h : s = "Yes" ∨ s = "No" ∨ s = "No internet service") :
    addOnMap (Cell.str s) = Cell.num (if s = "Yes" then 1 else 0) := by
  rcases h with h | h | h <;> subst h <;> simp [addOnMap]

/-- C3: when the six add-on fields lie in
{`Yes`, `No`, `No internet service`}, the encoder sets `num_add_ons` to
the number of them equal to `Yes`, that count lies between 0 and 6, and
the six source columns are absent from the prepared row. -/
theorem prep_telco_num_add_ons (v : RawVals)
    (h1 : v.online_security = "Yes" ∨ v.online_security = "No" ∨
      v.online_security = "No internet service")
    (h2 : v.online_backup = "Yes" ∨ v.online_backup = "No" ∨
      v.online_backup = "No internet service")
    (h3 : v.device_protection = "Yes" ∨ v.device_protection = "No" ∨
      v.device_protection = "No internet service")
    (h4 : v.tech_support = "Yes" ∨ v.tech_support = "No" ∨
      v.tech_support = "No internet service")
    (h5 : v.streaming_tv = "Yes" ∨ v.streaming_tv = "No" ∨
      v.streaming_tv = "No internet service")
    (h6 : v.streaming_movies = "Yes" ∨ v.streaming_movies = "No" ∨
      v.streaming_movies = "No internet service") :
    lookupCell "num_add_ons" (prepRow (mkRawBody v)) =
      some (Cell.num (yesCount v))
    ∧ 0 ≤ yesCount v ∧ yesCount v ≤ 6
    ∧ ∀ c ∈ addOnCols, c ∉ rowKeys (prepRow (mkRawBody v)) := by
  rw [prepRow_mkRaw]
  refine ⟨?_, ?_, ?_, ?_⟩
  · have e1 := addOnMap_val _ h1
    have e2 := addOnMap_val _ h2
    have e3 := addOnMap_val _ h3
    have e4 := addOnMap_val _ h4
    have e5 := addOnMap_val _ h5
    have e6 := addOnMap_val _ h6
    simp [prepVals, lookupCell, e1, e2, e3, e4, e5, e6, cellAdd, yesCount]
  · unfold yesCount; split_ifs <;> norm_num
  · unfold yesCount; split_ifs <;> norm_num
  · simp [prepVals, addOnCols, rowKeys]

theorem prep_telco_num_add_ons_witness :
    (exRaw.online_security = "Yes" ∨ exRaw.online_security = "No" ∨
      exRaw.online_security = "No internet service") ∧
    (lookupCell "num_add_ons" (prepRow (mkRawBody exRaw)) =
      some (Cell.num (yesCount exRaw))
    ∧ 0 ≤ yesCount exRaw ∧ yesCount exRaw ≤ 6
    ∧ ∀ c ∈ addOnCols, c ∉ rowKeys (prepRow (mkRawBody exRaw))) :=
  ⟨by decide,
   prep_telco_num_add_ons exRaw (by decide) (by decide) (by decide)
     (by decide) (by decide) (by decide)⟩

/-- C4: the encoder re-bases the external contract codes {1,2,3} to
{0,1,2} in order, and the external internet-service codes so that 3
(none) becomes 0, 1 (DSL) becomes 1 and 2 (fiber) becomes 2. -/
theorem prep_telco_rebase (v : RawVals) :
    (v.contract_type_id = 1 →
      lookupCell "contract_type" (prepRow (mkRawBody v)) =
        some (Cell.num 0))
    ∧ (v.contract_type_id = 2 →
      lookupCell "contract_type" (prepRow (mkRawBody v)) =
        some (Cell.num 1))
    ∧ (v.contract_type_id = 3 →
      lookupCell "contract_type" (prepRow (mkRawBody v)) =
        some (Cell.num 2))
    ∧ (v.internet_service_type_id = 3 →
      lookupCell "internet_type" (prepRow (mkRawBody v)) =
        some (Cell.num 0))
    ∧ (v.internet_service_type_id = 1 →
      lookupCell "internet_type" (prepRow (mkRawBody v)) =
        some (Cell.num 1))
    ∧ (v.internet_service_type_id = 2 →
      lookupCell "internet_type" (prepRow (mkRawBody v)) =
        some (Cell.num 2)) := by
  rw [prepRow_mkRaw]
  have hc : lookupCell "contract_type" (prepVals v) =
      some (contractMap (Cell.num v.contract_type_id)) := by
    simp [prepVals, lookupCell]
  have hi : lookupCell "internet_type" (prepVals v) =
      some (internetMap (Cell.num v.internet_service_type_id)) := by
    simp [prepVals, lookupCell]
  refine ⟨fun h => ?_, fun h => ?_, fun h => ?_, fun h => ?_,
    fun h => ?_, fun h => ?_⟩
  · rw [hc, h]; norm_num [contractMap]
  · rw [hc, h]; norm_num [contractMap]
  · rw [hc, h]; norm_num [contractMap]
  · rw [hi, h]; norm_num [internetMap]
  · rw [hi, h]; norm_num [internetMap]
  · rw [hi, h]; norm_num [internetMap]

theorem prep_telco_rebase_witness :
    exRaw.contract_type_id = 1 ∧ exRaw.internet_service_type_id = 3 ∧
    lookupCell "contract_type" (prepRow (mkRawBody exRaw)) =
      some (Cell.num 0) ∧
    lookupCell "internet_type" (prepRow (mkRawBody exRaw)) =
      some (Cell.num 0) :=
  ⟨by norm_num [exRaw], by norm_num [exRaw],
   (prep_telco_rebase exRaw).1 (by norm_num [exRaw]),
   (prep_telco_rebase exRaw).2.2.2.1 (by norm_num [exRaw])⟩

/-- A blank or whitespace-only string fails the numeric parse. -/
theorem parseDec_whitespace (s : String)
    (h : s.toList.all (fun c => c.isWhitespace)) : parseDec s = none := by
  have hd : s.toList.dropWhile (fun c => c.isWhitespace) = [] := by
    rw [List.dropWhile_eq_nil_iff]
    intro x hx
    exact List.all_eq_true.mp h x hx
  simp only [parseDec, parseParts, hd]
  decide

/-- The `total_charges` cell of a prepared row is its raw text coerced
to a number. -/
theorem lookup_total_prepVals (v : RawVals) :
    lookupCell "total_charges" (prepVals v) =
      some (toNumericCell (Cell.str v.total_charges)) := by
  simp [prepVals, lookupCell]

/-- The row-retention predicate of `prep_telco` is parse success of the
raw cumulative-charge text. -/
theorem keep_iff (v : RawVals) :
    (!(Cell.isNull (lookupD "total_charges" (prepVals v)))) =
      (parseDec v.total_charges).isSome := by
  have h : lookupD "total_charges" (prepVals v) =
      toNumericCell (Cell.str v.total_charges) := by
    simp [prepVals, lookupD, lookupCell]
  rw [h]
  cases hp : parseDec v.total_charges with
  | some q => simp [toNumericCell, hp, Cell.isNull]
  | none => simp [toNumericCell, hp, Cell.isNull]

/-- C5: `prep_telco` drops exactly the rows whose cumulative-charge
text fails numeric parsing — the output is the preparation of the
parse-successful rows in order; blank or whitespace-only text always
fails the parse; and a parse-successful row keeps its parsed value in
`total_charges`. -/
theorem prep_telco_total_filter (vs : List RawVals) :
    prep_telco (vs.map mkRaw) =
      (vs.filter (fun v => (parseDec v.total_charges).isSome)).map
        (fun v => (v.customer_id, prepVals v))
    ∧ (∀ s : String, s.toList.all (fun c => c.isWhitespace) →
        parseDec s = none)
    ∧ (∀ v : RawVals, ∀ q : ℚ, parseDec v.total_charges = some q →
        lookupCell "total_charges" (prepRow (mkRawBody v)) =
          some (Cell.num q)) := by
  refine ⟨?_, fun s h => parseDec_whitespace s h, fun v q hq => ?_⟩
  · rw [prep_telco, List.map_map, List.map_map]
    have hmap : (((fun p : IRow => (p.1, prepRow p.2)) ∘
        setIndex) ∘ mkRaw) = fun v => (v.customer_id, prepVals v) := by
      funext w
      show ((setIndex (mkRaw w)).1, prepRow (setIndex (mkRaw w)).2) = _
      rw [setIndex_mkRaw]
      show (w.customer_id, prepRow (mkRawBody w)) = _
      rw [prepRow_mkRaw]
    rw [hmap, List.filter_map]
    congr 1
    refine List.filter_congr ?_
    intro w _
    exact keep_iff w
  · rw [prepRow_mkRaw, lookup_total_prepVals]
    simp [toNumericCell, hq]

theorem prep_telco_total_filter_witness :
    prep_telco ([exRaw, exRawWs].map mkRaw) =
      (([exRaw, exRawWs].filter
        (fun v => (parseDec v.total_charges).isSome)).map
        (fun v => (v.customer_id, prepVals v)))
    ∧ (∀ s : String, s.toList.all (fun c => c.isWhitespace) →
        parseDec s = none)
    ∧ (∀ v : RawVals, ∀ q : ℚ, parseDec v.total_charges = some q →
        lookupCell "total_charges" (prepRow (mkRawBody v)) =
          some (Cell.num q)) :=
  prep_telco_total_filter [exRaw, exRawWs]

theorem foldl_min_le_init (t : List ℚ) :
    ∀ a : ℚ, t.foldl min a ≤ a := by
  induction t with
  | nil => intro a; exact le_refl a
  | cons b t ih =>
    intro a
    exact le_trans (ih (min a b)) (min_le_left a b)

theorem foldl_min_le_mem (t : List ℚ) :
    ∀ (a x : ℚ), x ∈ t → t.foldl min a ≤ x := by
  induction t with
  | nil => intro a x hx; simp at hx
  | cons b t ih =>
    intro a x hx
    rcases List.mem_cons.mp hx with h | h
    · subst h
      exact le_trans (foldl_min_le_init t (min a x)) (min_le_right a x)
    · exact ih (min a b) x h

theorem foldl_min_choice (t : List ℚ) :
    ∀ a : ℚ, t.foldl min a = a ∨ t.foldl min a ∈ t := by
  induction t with
  | nil => intro a; exact Or.inl rfl
  | cons b t ih =>
    intro a
    rcases ih (min a b) with h | h
    · rcases min_choice a b with hm | hm
      · rw [List.foldl_cons, h, hm]; exact Or.inl rfl
      · rw [List.foldl_cons, h, hm]
        exact Or.inr (List.mem_cons_self b t)
    · exact Or.inr (List.mem_cons_of_mem b h)

theorem listMin_mem {l : List ℚ} (h : l ≠ []) : listMin l ∈ l := by
  cases l with
  | nil => exact absurd rfl h
  | cons a t =>
    rw [listMin]
    rcases foldl_min_choice t a with h' | h'
    · rw [h']; exact List.mem_cons_self a t
    · exact List.mem_cons_of_mem a h'

theorem listMin_le {l : List ℚ} {x : ℚ} (hx : x ∈ l) : listMin l ≤ x := by
  cases l with
  | nil => simp at hx
  | cons a t =>
    rw [listMin]
    rcases List.mem_cons.mp hx with h | h
    · subst h; exact foldl_min_le_init t x
    · exact foldl_min_le_mem t a x h

theorem foldl_max_ge_init (t : List ℚ) :
    ∀ a : ℚ, a ≤ t.foldl max a := by
  induction t with
  | nil => intro a; exact le_refl a
  | cons b t ih =>
    intro a
    exact le_trans (le_max_left a b) (ih (max a b))

theorem foldl_max_ge_mem (t : List ℚ) :
    ∀ (a x : ℚ), x ∈ t → x ≤ t.foldl max a := by
  induction t with
  | nil => intro a x hx; simp at hx
  | cons b t ih =>
    intro a x hx
    rcases List.mem_cons.mp hx with h | h
    · subst h
      exact le_trans (le_max_right a x) (foldl_max_ge_init t (max a x))
    · exact ih (max a b) x h

theorem foldl_max_choice (t : List ℚ) :
    ∀ a : ℚ, t.foldl max a = a ∨ t.foldl max a ∈ t := by
  induction t with
  | nil => intro a; exact Or.inl rfl
  | cons b t ih =>
    intro a
    rcases ih (max a b) with h | h
    · rcases max_choice a b with hm | hm
      · rw [List.foldl_cons, h, hm]; exact Or.inl rfl
      · rw [List.foldl_cons, h, hm]
        exact Or.inr (List.mem_cons_self b t)
    · exact Or.inr (List.mem_cons_of_mem b h)

theorem listMax_mem {l : List ℚ} (h : l ≠ []) : listMax l ∈ l := by
  cases l with
  | nil => exact absurd rfl h
  | cons a t =>
    rw [listMax]
    rcases foldl_max_choice t a with h' | h'
    · rw [h']; exact List.mem_cons_self a t
    · exact List.mem_cons_of_mem a h'

theorem listMax_ge {l : List ℚ} {x : ℚ} (hx : x ∈ l) : x ≤ listMax l := by
  cases l with
  | nil => simp at hx
  | cons a t =>
    rw [listMax]
    rcases List.mem_cons.mp hx with h | h
    · subst h; exact foldl_max_ge_init t x
    · exact foldl_max_ge_mem t a x h

theorem lookupCell_mapVals (g : String → Cell → Cell) (c : String)
    (r : Row) :
    lookupCell c (r.map (fun kv => (kv.1, g kv.1 kv.2))) =
      (lookupCell c r).map (g c) := by
  induction r with
  | nil => simp [lookupCell]
  | cons kv r ih =>
    obtain ⟨k, w⟩ := kv
    simp only [List.map_cons]
    rw [lookupCell, lookupCell]
    by_cases hk : k = c
    · subst hk
      rw [if_pos rfl, if_pos rfl, Option.map_some']
    · rw [if_neg hk, if_neg hk]
      exact ih

/-- The numeric column of a scaled table is the min-max transform of
the unscaled numeric column. -/
theorem colVals_scaleWith (xtr df : List IRow) (c : String) :
    colVals c (scaleWith xtr df) =
      (colVals c df).map
        (mmScale (listMin (colVals c xtr)) (listMax (colVals c xtr))) := by
  rw [colVals, scaleWith, List.filterMap_map]
  rw [show colVals c df =
    df.filterMap (fun r => cellQ (lookupD c r.2)) from rfl]
  rw [List.map_filterMap]
  refine List.filterMap_congr ?_
  intro r _
  show cellQ (lookupD c (scaleRow xtr r.2)) = _
  rw [scaleRow, lookupD, lookupCell_mapVals (mmCell xtr) c r.2]
  cases hl : lookupCell c r.2 with
  | none => simp [lookupD, hl, cellQ]
  | some w =>
    cases w with
    | num q => simp [lookupD, hl, cellQ, mmCell]
    | str s => simp [lookupD, hl, cellQ, mmCell]
    | null => simp [lookupD, hl, cellQ, mmCell]

theorem zip_keys_vals (r : Row) :
    (r.map Prod.fst).zip (r.map Prod.snd) = r := by
  induction r with
  | nil => rfl
  | cons kv r ih => simp [ih]

theorem rowKeys_mapVals (g : String → Cell → Cell) (r : Row) :
    rowKeys (r.map (fun kv => (kv.1, g kv.1 kv.2))) = rowKeys r := by
  induction r with
  | nil => rfl
  | cons kv r ih => simp only [rowKeys, List.map_cons] at ih ⊢; rw [ih]

theorem rowKeys_scaleRow (xtr : List IRow) (r : Row) :
    rowKeys (scaleRow xtr r) = rowKeys r :=
  rowKeys_mapVals (mmCell xtr) r

/-- On tables whose rows carry exactly the standard twelve feature
columns, the positional renaming of `telco_X_scale` is the identity. -/
theorem renameStd_scaleWith (xtr df : List IRow)
    (hk : ∀ r ∈ df, rowKeys r.2 = stdCols) :
    renameStd (scaleWith xtr df) = scaleWith xtr df := by
  rw [renameStd, scaleWith, List.map_map]
  refine List.map_congr_left ?_
  intro r hr
  show (r.1, stdCols.zip ((scaleRow xtr r.2).map Prod.snd)) = _
  have hkeys : (scaleRow xtr r.2).map Prod.fst = stdCols := by
    rw [show (scaleRow xtr r.2).map Prod.fst =
      rowKeys (scaleRow xtr r.2) from rfl, rowKeys_scaleRow]
    exact hk r hr
  rw [← hkeys, zip_keys_vals]

/-- C6: `telco_X_scale` fits min-max on the training features only and
applies that same transform to all three inputs — on standard-schema
training tables, every training column with distinct observed minimum
and maximum scales to minimum exactly 0 and maximum exactly 1, while a
validation value beyond the training range scales outside [0, 1]
(witnessed by a concrete table scaling to 2 > 1). -/
theorem telco_X_scale_unit (xtr xv xt : List IRow) (c : String)
    (hk : ∀ r ∈ xtr, rowKeys r.2 = stdCols)
    (hne : listMin (colVals c xtr) ≠ listMax (colVals c xtr))
    (hem : colVals c xtr ≠ []) :
    listMin (colVals c (telco_X_scale xtr xv xt).1) = 0
    ∧ listMax (colVals c (telco_X_scale xtr xv xt).1) = 1
    ∧ (∃ q : ℚ, 1 < q ∧
        colVals "contract_type" (telco_X_scale exTr exOut exOut).2.1 =
          [q]) := by
  have h1 : (telco_X_scale xtr xv xt).1 = scaleWith xtr xtr := by
    show renameStd (scaleWith xtr xtr) = _
    exact renameStd_scaleWith xtr xtr hk
  have hcv : colVals c (telco_X_scale xtr xv xt).1 =
      (colVals c xtr).map (mmScale (listMin (colVals c xtr))
        (listMax (colVals c xtr))) := by
    rw [h1, colVals_scaleWith]
  have hmM : listMin (colVals c xtr) < listMax (colVals c xtr) :=
    lt_of_le_of_ne (listMin_le (listMax_mem hem)) hne
  have hd : (if listMax (colVals c xtr) = listMin (colVals c xtr) then (1 : ℚ)
      else listMax (colVals c xtr) - listMin (colVals c xtr)) =
      listMax (colVals c xtr) - listMin (colVals c xtr) :=
    if_neg (fun h => hne h.symm)
  have hpos : 0 < listMax (colVals c xtr) - listMin (colVals c xtr) :=
    sub_pos.mpr hmM
  have hbounds : ∀ x ∈ colVals c xtr,
      0 ≤ mmScale (listMin (colVals c xtr)) (listMax (colVals c xtr)) x
      ∧ mmScale (listMin (colVals c xtr)) (listMax (colVals c xtr)) x ≤ 1 := by
    intro x hx
    rw [mmScale, hd]
    constructor
    · exact div_nonneg (sub_nonneg.mpr (listMin_le hx)) (le_of_lt hpos)
    · rw [div_le_one hpos]
      exact sub_le_sub_right (listMax_ge hx) _
  have hm0 : mmScale (listMin (colVals c xtr)) (listMax (colVals c xtr))
      (listMin (colVals c xtr)) = 0 := by
    rw [mmScale, hd]; simp
  have hM1 : mmScale (listMin (colVals c xtr)) (listMax (colVals c xtr))
      (listMax (colVals c xtr)) = 1 := by
    rw [mmScale, hd]; exact div_self (ne_of_gt hpos)
  have hne2 : (colVals c xtr).map (mmScale (listMin (colVals c xtr))
      (listMax (colVals c xtr))) ≠ [] := by
    intro h
    exact hem (List.map_eq_nil_iff.mp h)
  refine ⟨?_, ?_, ?_⟩
  · rw [hcv]
    apply le_antisymm
    · have hmem : (0 : ℚ) ∈ (colVals c xtr).map
          (mmScale (listMin (colVals c xtr)) (listMax (colVals c xtr))) := by
        rw [← hm0]
        exact List.mem_map_of_mem _ (listMin_mem hem)
      exact listMin_le hmem
    · obtain ⟨x, hx, hfx⟩ := List.mem_map.mp (listMin_mem hne2)
      rw [← hfx]
      exact (hbounds x hx).1
  · rw [hcv]
    apply le_antisymm
    · obtain ⟨x, hx, hfx⟩ := List.mem_map.mp (listMax_mem hne2)
      rw [← hfx]
      exact (hbounds x hx).2
    · have hmem : (1 : ℚ) ∈ (colVals c xtr).map
          (mmScale (listMin (colVals c xtr)) (listMax (colVals c xtr))) := by
        rw [← hM1]
        exact List.mem_map_of_mem _ (listMax_mem hem)
      exact listMax_ge hmem
  · refine ⟨2, by norm_num, ?_⟩
    have hkeys : ∀ r ∈ exOut, rowKeys r.2 = stdCols := by decide
    have e1 : (telco_X_scale exTr exOut exOut).2.1 =
        scaleWith exTr exOut := by
      show renameStd (scaleWith exTr exOut) = _
      exact renameStd_scaleWith exTr exOut hkeys
    rw [e1, colVals_scaleWith,
      show colVals "contract_type" exOut = [2] from by decide,
      show colVals "contract_type" exTr = [0, 1] from by decide,
      show listMin [(0 : ℚ), 1] = 0 from by norm_num [listMin, min_def],
      show listMax [(0 : ℚ), 1] = 1 from by norm_num [listMax, max_def]]
    norm_num [mmScale]

theorem telco_X_scale_unit_witness :
    (∀ r ∈ exTr, rowKeys r.2 = stdCols) ∧
    listMin (colVals "tenure" exTr) ≠ listMax (colVals "tenure" exTr) ∧
    colVals "tenure" exTr ≠ [] ∧
    (listMin (colVals "tenure" (telco_X_scale exTr exOut exOut).1) = 0
    ∧ listMax (colVals "tenure" (telco_X_scale exTr exOut exOut).1) = 1
    ∧ (∃ q : ℚ, 1 < q ∧
        colVals "contract_type" (telco_X_scale exTr exOut exOut).2.1 =
          [q])) :=
  ⟨by decide,
   by
     rw [show colVals "tenure" exTr = [0, 1] from by decide]
     norm_num [listMin, listMax, min_def, max_def],
   by decide,
   telco_X_scale_unit exTr exOut exOut "tenure" (by decide)
     (by
       rw [show colVals "tenure" exTr = [0, 1] from by decide]
       norm_num [listMin, listMax, min_def, max_def])
     (by decide)⟩
